import Mathlib

/-!
# GoTidy option setters (`options.go`)

A shallow embedding of the option-setting layer of GoTidy: the public setters of
`*Tidy` and the four dispatch primitives `optSetAutoBool`, `optSetString`,
`optSetInt` and `optSetBool` they funnel through.

The native engine (libtidy, reached through cgo) is not part of the repository.
It is a parameter of every definition: an `Engine σ` gives the behaviour of the
four C entry points the Go code calls, over an arbitrary engine state `σ`.
Every call of an entry point is recorded in a call log carried by the handle, so
that "the engine is (not) invoked" is a statement about that log.

Machine integers: a Go `int` is an `Int` in the range of `GoInt` (64 bits), the C
`unsigned long` handed to the engine is a `Nat` obtained by reduction modulo
`2^64`, and the C `int` length given to `C.GoStringN` is obtained by the signed
32-bit wrap `toCInt`.
-/

namespace GoTidy

/-! ## Engine interface -/

/-- Symbolic option identifiers of the engine (`C.Tidy...`): the members of the
engine's option enumeration that `options.go` refers to, together with
`TidyAltText`, the engine's identifier of the alt-text option. Distinct names are
distinct members of the enumeration. -/
inductive TidyOptionId where
  | TidyXmlDecl | TidyXmlSpace | TidyAltText | TidyXmlPIs | TidyMakeBare | TidyMakeClean
  | TidyCSSPrefix | TidyDecorateInferredUL | TidyDoctype | TidyDropEmptyParas
  | TidyDropPropAttrs | TidyEncloseBlockText | TidyEncloseBodyText | TidyEscapeCdata
  | TidyFixBackslash | TidyFixComments | TidyFixUri | TidyHideComments | TidyIndentCdata
  | TidyXmlTags | TidyJoinClasses | TidyJoinStyles | TidyLiteralAttribs
  | TidyLogicalEmphasis | TidyLowerLiterals | TidyMergeDivs | TidyNCR | TidyBlockTags
  | TidyEmptyTags | TidyInlineTags | TidyPreTags | TidyNumEntities | TidyHtmlOut
  | TidyXhtmlOut | TidyXmlOut | TidyQuoteAmpersand | TidyQuoteMarks | TidyQuoteNbsp
  | TidyDuplicateAttrs | TidyReplaceColor | TidyBodyOnly | TidyUpperCaseAttrs
  | TidyUpperCaseTags | TidyWord2000 | TidyAccessibilityCheckLevel | TidyShowErrors
  | TidyShowWarnings | TidyBreakBeforeBR | TidyIndentContent | TidyIndentAttributes
  | TidyIndentSpaces | TidyShowMarkup | TidyPunctWrap | TidyTabSize | TidyVertSpace
  | TidyWrapLen | TidyWrapAsp | TidyWrapAttVals | TidyWrapJste | TidyWrapPhp
  | TidyWrapScriptlets | TidyWrapSection | TidyAsciiChars | TidyCharEncoding
  | TidyInCharEncoding | TidyNewline | TidyOutputBOM | TidyOutCharEncoding | TidyErrFile
  | TidyForceOutput | TidyEmacs | TidyEmacsFile | TidyKeepFileTimes | TidyOutFile
  | TidyQuiet | TidyMark | TidyWriteBack
  deriving DecidableEq, Repr

/-- The engine's diagnostic buffer (`C.TidyBuffer`), restricted to the two fields
`options.go` reads: `bp`, the text stored at the buffer's base pointer (one
character per byte), and `size`, the number of bytes the engine reports as used. -/
structure TidyBuffer where
  bp : List Char
  size : Nat
  deriving DecidableEq, Repr

/-- The four engine entry points called by `options.go`, over an engine state `σ`
(what `this.tdoc` points to). Each returns the new engine state and the C return
value; `tidySetErrorBuffer` is handed `&this.errbuf` and may write to it. In this
interface the set entry points do not see the buffer: it describes the engines
that write the buffer only inside `tidySetErrorBuffer`. An engine that keeps the
pointer and writes through it later is a `SharedEngine`. -/
structure Engine (σ : Type) where
  tidyOptSetInt : σ → TidyOptionId → Nat → σ × Int
  tidyOptSetBool : σ → TidyOptionId → Nat → σ × Int
  tidyOptSetValue : σ → TidyOptionId → List Char → σ × Int
  tidySetErrorBuffer : σ → TidyBuffer → (σ × TidyBuffer) × Int

/-- One recorded call of an engine entry point, with the arguments it was given. -/
inductive Call where
  | tidyOptSetInt (opt : TidyOptionId) (val : Nat)
  | tidyOptSetBool (opt : TidyOptionId) (val : Nat)
  | tidyOptSetValue (opt : TidyOptionId) (val : List Char)
  | tidySetErrorBuffer
  deriving DecidableEq, Repr

/-- The receiver `*Tidy`: the engine document `tdoc`, the diagnostic buffer
`errbuf`, and the log of engine calls made through this handle (oldest first). -/
structure Tidy (σ : Type) where
  tdoc : σ
  errbuf : TidyBuffer
  calls : List Call

/-- A Go `(bool, error)` result: the error is `none` for `nil` and `some msg` for
`errors.New(msg)`. -/
abbrev Result := Bool × Option String

/-! ## Machine integers and strings -/

/-- Range of a Go `int` (64 bits). -/
def GoInt (val : Int) : Prop := -9223372036854775808 ≤ val ∧ val < 9223372036854775808

instance (val : Int) : Decidable (GoInt val) := by unfold GoInt; infer_instance

/-- The conversion `(C.ulong)(val)` of a Go `int`: reduction modulo `2^64`. -/
def toCUlong (val : Int) : Nat := (val % 18446744073709551616).toNat

/-- The conversion `C.int(n)` of an unsigned size: wrap to a signed 32-bit value. -/
def toCInt (n : Nat) : Int :=
  if n % 4294967296 < 2147483648 then ((n % 4294967296 : Nat) : Int)
  else ((n % 4294967296 : Nat) : Int) - 4294967296

/-- Function `C.GoStringN(p, n)`: the first `n` bytes at `p` as a Go string; a negative
length makes the Go runtime panic (`none`). -/
def GoStringN (p : List Char) (n : Int) : Option String :=
  if n < 0 then none else some (String.mk (p.take n.toNat))

/-- Function `C.CString(val)`: a NUL-terminated copy of the bytes of `val`. -/
def CString (val : String) : List Char := val.data ++ [Char.ofNat 0]

/-! ## Dispatch primitives -/

/-- Function `cBool`: the C `Bool` for a Go `bool`. -/
def cBool (val : Bool) : Nat :=
  let v : Nat := 0
  if val then 1 else v

/-- Primitive `optSetInt`: calls `C.tidyOptSetInt`; `false, nil` when it returns `1`,
otherwise `true, nil`. -/
def optSetInt {σ : Type} (E : Engine σ) (this : Tidy σ) (opt : TidyOptionId) (val : Nat) :
    Result × Tidy σ :=
  let r := E.tidyOptSetInt this.tdoc opt val
  let this1 : Tidy σ :=
    { this with tdoc := r.1, calls := this.calls ++ [Call.tidyOptSetInt opt val] }
  if r.2 = 1 then ((false, none), this1) else ((true, none), this1)

/-- Primitive `optSetString`: calls `C.tidyOptSetValue`; `false, nil` when it returns `1`,
otherwise `true, nil`. -/
def optSetString {σ : Type} (E : Engine σ) (this : Tidy σ) (opt : TidyOptionId)
    (val : List Char) : Result × Tidy σ :=
  let r := E.tidyOptSetValue this.tdoc opt val
  let this1 : Tidy σ :=
    { this with tdoc := r.1, calls := this.calls ++ [Call.tidyOptSetValue opt val] }
  if r.2 = 1 then ((false, none), this1) else ((true, none), this1)

/-- Primitive `optSetBool`: calls `C.tidyOptSetBool`; when it returns `1`, calls
`C.tidySetErrorBuffer` on `&this.errbuf` and, if that returns a non-zero status,
returns `false` with an error made of the first `errbuf.size` bytes at
`errbuf.bp`; in every other case returns `true, nil`. The result is `none` when
`C.GoStringN` panics. -/
def optSetBool {σ : Type} (E : Engine σ) (this : Tidy σ) (opt : TidyOptionId) (val : Nat) :
    Option (Result × Tidy σ) :=
  let r := E.tidyOptSetBool this.tdoc opt val
  let this1 : Tidy σ :=
    { this with tdoc := r.1, calls := this.calls ++ [Call.tidyOptSetBool opt val] }
  if r.2 = 1 then
    let c := E.tidySetErrorBuffer this1.tdoc this1.errbuf
    let this2 : Tidy σ :=
      { tdoc := c.1.1, errbuf := c.1.2, calls := this1.calls ++ [Call.tidySetErrorBuffer] }
    let rc : Int := c.2
    if rc ≠ 0 then
      match GoStringN this2.errbuf.bp (toCInt this2.errbuf.size) with
      | some msg => some ((false, some msg), this2)
      | none => none
    else some ((true, none), this2)
  else some ((true, none), this1)

/-- Constant `Autobool_false`. -/
def Autobool_false : Nat := 0
/-- Constant `Autobool_true`. -/
def Autobool_true : Nat := 1
/-- Constant `Autobool_auto`. -/
def Autobool_auto : Nat := 2

/-- Primitive `optSetAutoBool`: the `switch` on the converted value; the three tri-state
codes go to `optSetInt`, anything else is refused without calling the engine. -/
def optSetAutoBool {σ : Type} (E : Engine σ) (this : Tidy σ) (opt : TidyOptionId)
    (val : Nat) : Result × Tidy σ :=
  if val = Autobool_false ∨ val = Autobool_true ∨ val = Autobool_auto then
    optSetInt E this opt val
  else ((false, some "Argument val int is out of range (0,1,2)"), this)

/-! ## Constants of the public interface -/

/-- Constant `False` (tri-state code). -/
def Const.False : Int := 0
/-- Constant `True` (tri-state code). -/
def Const.True : Int := 1
/-- Constant `Auto` (tri-state code). -/
def Const.Auto : Int := 2

/-- Constant `KeepFirst`. -/
def KeepFirst : Int := 0
/-- Constant `KeepLast`. -/
def KeepLast : Int := 1

/-- Constant `TidyClassic`. -/
def TidyClassic : Int := 0
/-- Constant `Priority1Checks`. -/
def Priority1Checks : Int := 1
/-- Constant `Priority2Checks`. -/
def Priority2Checks : Int := 2
/-- Constant `Priority3Checks`. -/
def Priority3Checks : Int := 3

/-- Constant `Raw`. -/
def Raw : Int := 0
/-- Constant `Ascii`. -/
def Ascii : Int := 1
/-- Constant `Latin0`. -/
def Latin0 : Int := 2
/-- Constant `Latin1`. -/
def Latin1 : Int := 3
/-- Constant `Utf8`. -/
def Utf8 : Int := 4
/-- Constant `Iso2022`. -/
def Iso2022 : Int := 5
/-- Constant `Mac`. -/
def Mac : Int := 6
/-- Constant `Win1252`. -/
def Win1252 : Int := 7
/-- Constant `Ibm858`. -/
def Ibm858 : Int := 8
/-- Constant `Utf16le`. -/
def Utf16le : Int := 9
/-- Constant `Utf16be`. -/
def Utf16be : Int := 10
/-- Constant `Utf16`. -/
def Utf16 : Int := 11
/-- Constant `Big5`. -/
def Big5 : Int := 12
/-- Constant `Shiftjis`. -/
def Shiftjis : Int := 13

/-- Constant `LF`. -/
def LF : Int := 0
/-- Constant `CRLF`. -/
def CRLF : Int := 1
/-- Constant `CR`. -/
def CR : Int := 2

/-! ## Public setters -/

/-- Setter `AddXmlDecl`: boolean option `TidyXmlDecl`. -/
def AddXmlDecl {σ : Type} (E : Engine σ) (this : Tidy σ) (val : Bool) :
    Option (Result × Tidy σ) :=
  optSetBool E this .TidyXmlDecl (cBool val)

/-- Setter `AddXmlSpace`: boolean option `TidyXmlSpace`. -/
def AddXmlSpace {σ : Type} (E : Engine σ) (this : Tidy σ) (val : Bool) :
    Option (Result × Tidy σ) :=
  optSetBool E this .TidyXmlSpace (cBool val)

/-- Setter `AltText`: `C.CString(val)` handed to string option `TidyXmlSpace`. -/
def AltText {σ : Type} (E : Engine σ) (this : Tidy σ) (val : String) : Result × Tidy σ :=
  let v := CString val
  optSetString E this .TidyXmlSpace v

/-- Setter `AssumeXmlProcins`: boolean option `TidyXmlPIs`. -/
def AssumeXmlProcins {σ : Type} (E : Engine σ) (this : Tidy σ) (val : Bool) :
    Option (Result × Tidy σ) :=
  optSetBool E this .TidyXmlPIs (cBool val)

/-- Setter `Bare`: boolean option `TidyMakeBare`. -/
def Bare {σ : Type} (E : Engine σ) (this : Tidy σ) (val : Bool) :
    Option (Result × Tidy σ) :=
  optSetBool E this .TidyMakeBare (cBool val)

/-- Setter `Clean`: boolean option `TidyMakeClean`. -/
def Clean {σ : Type} (E : Engine σ) (this : Tidy σ) (val : Bool) :
    Option (Result × Tidy σ) :=
  optSetBool E this .TidyMakeClean (cBool val)

/-- Setter `CssPrefix`: `C.CString(val)` handed to string option `TidyCSSPrefix`. -/
def CssPrefix {σ : Type} (E : Engine σ) (this : Tidy σ) (val : String) : Result × Tidy σ :=
  let v := CString val
  optSetString E this .TidyCSSPrefix v

/-- Setter `DecorateInferredUl`: boolean option `TidyDecorateInferredUL`. -/
def DecorateInferredUl {σ : Type} (E : Engine σ) (this : Tidy σ) (val : Bool) :
    Option (Result × Tidy σ) :=
  optSetBool E this .TidyDecorateInferredUL (cBool val)

/-- Setter `Doctype`: `C.CString(val)` handed to string option `TidyDoctype`. -/
def Doctype {σ : Type} (E : Engine σ) (this : Tidy σ) (val : String) : Result × Tidy σ :=
  let v := CString val
  optSetString E this .TidyDoctype v

/-- Setter `DropEmptyParas`: boolean option `TidyDropEmptyParas`. -/
def DropEmptyParas {σ : Type} (E : Engine σ) (this : Tidy σ) (val : Bool) :
    Option (Result × Tidy σ) :=
  optSetBool E this .TidyDropEmptyParas (cBool val)

/-- Setter `DropProprietaryAttributes`: boolean option `TidyDropPropAttrs`. -/
def DropProprietaryAttributes {σ : Type} (E : Engine σ) (this : Tidy σ) (val : Bool) :
    Option (Result × Tidy σ) :=
  optSetBool E this .TidyDropPropAttrs (cBool val)

/-- Setter `EncloseBlockText`: boolean option `TidyEncloseBlockText`. -/
def EncloseBlockText {σ : Type} (E : Engine σ) (this : Tidy σ) (val : Bool) :
    Option (Result × Tidy σ) :=
  optSetBool E this .TidyEncloseBlockText (cBool val)

/-- Setter `EncloseText`: boolean option `TidyEncloseBodyText`. -/
def EncloseText {σ : Type} (E : Engine σ) (this : Tidy σ) (val : Bool) :
    Option (Result × Tidy σ) :=
  optSetBool E this .TidyEncloseBodyText (cBool val)

/-- Setter `EscapeCdata`: boolean option `TidyEscapeCdata`. -/
def EscapeCdata {σ : Type} (E : Engine σ) (this : Tidy σ) (val : Bool) :
    Option (Result × Tidy σ) :=
  optSetBool E this .TidyEscapeCdata (cBool val)

/-- Setter `FixBackslash`: boolean option `TidyFixBackslash`. -/
def FixBackslash {σ : Type} (E : Engine σ) (this : Tidy σ) (val : Bool) :
    Option (Result × Tidy σ) :=
  optSetBool E this .TidyFixBackslash (cBool val)

/-- Setter `FixBadComments`: boolean option `TidyFixComments`. -/
def FixBadComments {σ : Type} (E : Engine σ) (this : Tidy σ) (val : Bool) :
    Option (Result × Tidy σ) :=
  optSetBool E this .TidyFixComments (cBool val)

/-- Setter `FixUri`: boolean option `TidyFixUri`. -/
def FixUri {σ : Type} (E : Engine σ) (this : Tidy σ) (val : Bool) :
    Option (Result × Tidy σ) :=
  optSetBool E this .TidyFixUri (cBool val)

/-- Setter `HideComments`: boolean option `TidyHideComments`. -/
def HideComments {σ : Type} (E : Engine σ) (this : Tidy σ) (val : Bool) :
    Option (Result × Tidy σ) :=
  optSetBool E this .TidyHideComments (cBool val)

/-- Setter `IndentCdata`: boolean option `TidyIndentCdata`. -/
def IndentCdata {σ : Type} (E : Engine σ) (this : Tidy σ) (val : Bool) :
    Option (Result × Tidy σ) :=
  optSetBool E this .TidyIndentCdata (cBool val)

/-- Setter `InputXml`: boolean option `TidyXmlTags`. -/
def InputXml {σ : Type} (E : Engine σ) (this : Tidy σ) (val : Bool) :
    Option (Result × Tidy σ) :=
  optSetBool E this .TidyXmlTags (cBool val)

/-- Setter `JoinClasses`: boolean option `TidyJoinClasses`. -/
def JoinClasses {σ : Type} (E : Engine σ) (this : Tidy σ) (val : Bool) :
    Option (Result × Tidy σ) :=
  optSetBool E this .TidyJoinClasses (cBool val)

/-- Setter `JoinStyles`: boolean option `TidyJoinStyles`. -/
def JoinStyles {σ : Type} (E : Engine σ) (this : Tidy σ) (val : Bool) :
    Option (Result × Tidy σ) :=
  optSetBool E this .TidyJoinStyles (cBool val)

/-- Setter `LiteralAttributes`: boolean option `TidyLiteralAttribs`. -/
def LiteralAttributes {σ : Type} (E : Engine σ) (this : Tidy σ) (val : Bool) :
    Option (Result × Tidy σ) :=
  optSetBool E this .TidyLiteralAttribs (cBool val)

/-- Setter `LogicalEmphasis`: boolean option `TidyLogicalEmphasis`. -/
def LogicalEmphasis {σ : Type} (E : Engine σ) (this : Tidy σ) (val : Bool) :
    Option (Result × Tidy σ) :=
  optSetBool E this .TidyLogicalEmphasis (cBool val)

/-- Setter `LowerLiterals`: boolean option `TidyLowerLiterals`. -/
def LowerLiterals {σ : Type} (E : Engine σ) (this : Tidy σ) (val : Bool) :
    Option (Result × Tidy σ) :=
  optSetBool E this .TidyLowerLiterals (cBool val)

/-- Setter `MergeDivs`: tri-state option `TidyMergeDivs`. -/
def MergeDivs {σ : Type} (E : Engine σ) (this : Tidy σ) (val : Int) : Result × Tidy σ :=
  optSetAutoBool E this .TidyMergeDivs (toCUlong val)

/-- Setter `Ncr`: boolean option `TidyNCR`. -/
def Ncr {σ : Type} (E : Engine σ) (this : Tidy σ) (val : Bool) :
    Option (Result × Tidy σ) :=
  optSetBool E this .TidyNCR (cBool val)

/-- Setter `NewBlocklevelTags`: `C.CString(val)` handed to string option `TidyBlockTags`. -/
def NewBlocklevelTags {σ : Type} (E : Engine σ) (this : Tidy σ) (val : String) : Result × Tidy σ :=
  let v := CString val
  optSetString E this .TidyBlockTags v

/-- Setter `NewEmptyTags`: `C.CString(val)` handed to string option `TidyEmptyTags`. -/
def NewEmptyTags {σ : Type} (E : Engine σ) (this : Tidy σ) (val : String) : Result × Tidy σ :=
  let v := CString val
  optSetString E this .TidyEmptyTags v

/-- Setter `NewInlineTags`: `C.CString(val)` handed to string option `TidyInlineTags`. -/
def NewInlineTags {σ : Type} (E : Engine σ) (this : Tidy σ) (val : String) : Result × Tidy σ :=
  let v := CString val
  optSetString E this .TidyInlineTags v

/-- Setter `NewPreTags`: `C.CString(val)` handed to string option `TidyPreTags`. -/
def NewPreTags {σ : Type} (E : Engine σ) (this : Tidy σ) (val : String) : Result × Tidy σ :=
  let v := CString val
  optSetString E this .TidyPreTags v

/-- Setter `NumericEntities`: boolean option `TidyNumEntities`. -/
def NumericEntities {σ : Type} (E : Engine σ) (this : Tidy σ) (val : Bool) :
    Option (Result × Tidy σ) :=
  optSetBool E this .TidyNumEntities (cBool val)

/-- Setter `OutputHtml`: boolean option `TidyHtmlOut`. -/
def OutputHtml {σ : Type} (E : Engine σ) (this : Tidy σ) (val : Bool) :
    Option (Result × Tidy σ) :=
  optSetBool E this .TidyHtmlOut (cBool val)

/-- Setter `OutputXhtml`: boolean option `TidyXhtmlOut`. -/
def OutputXhtml {σ : Type} (E : Engine σ) (this : Tidy σ) (val : Bool) :
    Option (Result × Tidy σ) :=
  optSetBool E this .TidyXhtmlOut (cBool val)

/-- Setter `OutputXml`: boolean option `TidyXmlOut`. -/
def OutputXml {σ : Type} (E : Engine σ) (this : Tidy σ) (val : Bool) :
    Option (Result × Tidy σ) :=
  optSetBool E this .TidyXmlOut (cBool val)

/-- Setter `QuoteAmpersand`: boolean option `TidyQuoteAmpersand`. -/
def QuoteAmpersand {σ : Type} (E : Engine σ) (this : Tidy σ) (val : Bool) :
    Option (Result × Tidy σ) :=
  optSetBool E this .TidyQuoteAmpersand (cBool val)

/-- Setter `QuoteMarks`: boolean option `TidyQuoteMarks`. -/
def QuoteMarks {σ : Type} (E : Engine σ) (this : Tidy σ) (val : Bool) :
    Option (Result × Tidy σ) :=
  optSetBool E this .TidyQuoteMarks (cBool val)

/-- Setter `QuoteNbsp`: boolean option `TidyQuoteNbsp`. -/
def QuoteNbsp {σ : Type} (E : Engine σ) (this : Tidy σ) (val : Bool) :
    Option (Result × Tidy σ) :=
  optSetBool E this .TidyQuoteNbsp (cBool val)

/-- Setter `RepeatedAttributes`: the `switch` on `val`; a listed value goes to `optSetInt` on
`TidyDuplicateAttrs`, anything else is refused without calling the engine. -/
def RepeatedAttributes {σ : Type} (E : Engine σ) (this : Tidy σ) (val : Int) : Result × Tidy σ :=
  if val = KeepFirst ∨ val = KeepLast then
    optSetInt E this .TidyDuplicateAttrs (toCUlong val)
  else ((false, some "Argument val int is out of range (0,1)"), this)

/-- Setter `ReplaceColor`: boolean option `TidyReplaceColor`. -/
def ReplaceColor {σ : Type} (E : Engine σ) (this : Tidy σ) (val : Bool) :
    Option (Result × Tidy σ) :=
  optSetBool E this .TidyReplaceColor (cBool val)

/-- Setter `ShowBodyOnly`: tri-state option `TidyBodyOnly`. -/
def ShowBodyOnly {σ : Type} (E : Engine σ) (this : Tidy σ) (val : Int) : Result × Tidy σ :=
  optSetAutoBool E this .TidyBodyOnly (toCUlong val)

/-- Setter `UppercaseAttributes`: boolean option `TidyUpperCaseAttrs`. -/
def UppercaseAttributes {σ : Type} (E : Engine σ) (this : Tidy σ) (val : Bool) :
    Option (Result × Tidy σ) :=
  optSetBool E this .TidyUpperCaseAttrs (cBool val)

/-- Setter `UppercaseTags`: boolean option `TidyUpperCaseTags`. -/
def UppercaseTags {σ : Type} (E : Engine σ) (this : Tidy σ) (val : Bool) :
    Option (Result × Tidy σ) :=
  optSetBool E this .TidyUpperCaseTags (cBool val)

/-- Setter `Word2000`: boolean option `TidyWord2000`. -/
def Word2000 {σ : Type} (E : Engine σ) (this : Tidy σ) (val : Bool) :
    Option (Result × Tidy σ) :=
  optSetBool E this .TidyWord2000 (cBool val)

/-- Setter `AccessibilityCheck`: the `switch` on `val`; a listed value goes to `optSetInt` on
`TidyAccessibilityCheckLevel`, anything else is refused without calling the engine. -/
def AccessibilityCheck {σ : Type} (E : Engine σ) (this : Tidy σ) (val : Int) : Result × Tidy σ :=
  if val = TidyClassic ∨ val = Priority1Checks ∨ val = Priority2Checks ∨
      val = Priority3Checks then
    optSetInt E this .TidyAccessibilityCheckLevel (toCUlong val)
  else ((false, some "Argument val int is out of range (0,1,2,3)"), this)

/-- Setter `ShowErrors`: integer option `TidyShowErrors`, no validation. -/
def ShowErrors {σ : Type} (E : Engine σ) (this : Tidy σ) (val : Int) : Result × Tidy σ :=
  optSetInt E this .TidyShowErrors (toCUlong val)

/-- Setter `ShowWarnings`: boolean option `TidyShowWarnings`. -/
def ShowWarnings {σ : Type} (E : Engine σ) (this : Tidy σ) (val : Bool) :
    Option (Result × Tidy σ) :=
  optSetBool E this .TidyShowWarnings (cBool val)

/-- Setter `BreakBeforeBr`: boolean option `TidyBreakBeforeBR`. -/
def BreakBeforeBr {σ : Type} (E : Engine σ) (this : Tidy σ) (val : Bool) :
    Option (Result × Tidy σ) :=
  optSetBool E this .TidyBreakBeforeBR (cBool val)

/-- Setter `Indent`: tri-state option `TidyIndentContent`. -/
def Indent {σ : Type} (E : Engine σ) (this : Tidy σ) (val : Int) : Result × Tidy σ :=
  optSetAutoBool E this .TidyIndentContent (toCUlong val)

/-- Setter `IndentAttributes`: boolean option `TidyIndentAttributes`. -/
def IndentAttributes {σ : Type} (E : Engine σ) (this : Tidy σ) (val : Bool) :
    Option (Result × Tidy σ) :=
  optSetBool E this .TidyIndentAttributes (cBool val)

/-- Setter `IndentSpaces`: integer option `TidyIndentSpaces`, no validation. -/
def IndentSpaces {σ : Type} (E : Engine σ) (this : Tidy σ) (val : Int) : Result × Tidy σ :=
  optSetInt E this .TidyIndentSpaces (toCUlong val)

/-- Setter `Markup`: boolean option `TidyShowMarkup`. -/
def Markup {σ : Type} (E : Engine σ) (this : Tidy σ) (val : Bool) :
    Option (Result × Tidy σ) :=
  optSetBool E this .TidyShowMarkup (cBool val)

/-- Setter `PunctuationWrap`: boolean option `TidyPunctWrap`. -/
def PunctuationWrap {σ : Type} (E : Engine σ) (this : Tidy σ) (val : Bool) :
    Option (Result × Tidy σ) :=
  optSetBool E this .TidyPunctWrap (cBool val)

/-- Setter `TabSize`: integer option `TidyTabSize`, no validation. -/
def TabSize {σ : Type} (E : Engine σ) (this : Tidy σ) (val : Int) : Result × Tidy σ :=
  optSetInt E this .TidyTabSize (toCUlong val)

/-- Setter `VerticalSpace`: boolean option `TidyVertSpace`. -/
def VerticalSpace {σ : Type} (E : Engine σ) (this : Tidy σ) (val : Bool) :
    Option (Result × Tidy σ) :=
  optSetBool E this .TidyVertSpace (cBool val)

/-- Setter `Wrap`: integer option `TidyWrapLen`, no validation. -/
def Wrap {σ : Type} (E : Engine σ) (this : Tidy σ) (val : Int) : Result × Tidy σ :=
  optSetInt E this .TidyWrapLen (toCUlong val)

/-- Setter `WrapAsp`: boolean option `TidyWrapAsp`. -/
def WrapAsp {σ : Type} (E : Engine σ) (this : Tidy σ) (val : Bool) :
    Option (Result × Tidy σ) :=
  optSetBool E this .TidyWrapAsp (cBool val)

/-- Setter `WrapAttributes`: boolean option `TidyWrapAttVals`. -/
def WrapAttributes {σ : Type} (E : Engine σ) (this : Tidy σ) (val : Bool) :
    Option (Result × Tidy σ) :=
  optSetBool E this .TidyWrapAttVals (cBool val)

/-- Setter `WrapJste`: boolean option `TidyWrapJste`. -/
def WrapJste {σ : Type} (E : Engine σ) (this : Tidy σ) (val : Bool) :
    Option (Result × Tidy σ) :=
  optSetBool E this .TidyWrapJste (cBool val)

/-- Setter `WrapPhp`: boolean option `TidyWrapPhp`. -/
def WrapPhp {σ : Type} (E : Engine σ) (this : Tidy σ) (val : Bool) :
    Option (Result × Tidy σ) :=
  optSetBool E this .TidyWrapPhp (cBool val)

/-- Setter `WrapScriptLiterals`: boolean option `TidyWrapScriptlets`. -/
def WrapScriptLiterals {σ : Type} (E : Engine σ) (this : Tidy σ) (val : Bool) :
    Option (Result × Tidy σ) :=
  optSetBool E this .TidyWrapScriptlets (cBool val)

/-- Setter `WrapSections`: boolean option `TidyWrapSection`. -/
def WrapSections {σ : Type} (E : Engine σ) (this : Tidy σ) (val : Bool) :
    Option (Result × Tidy σ) :=
  optSetBool E this .TidyWrapSection (cBool val)

/-- Setter `AsciiChars`: boolean option `TidyAsciiChars`. -/
def AsciiChars {σ : Type} (E : Engine σ) (this : Tidy σ) (val : Bool) :
    Option (Result × Tidy σ) :=
  optSetBool E this .TidyAsciiChars (cBool val)

/-- Setter `CharEncoding`: the `switch` on `val`; a listed value goes to `optSetInt` on
`TidyCharEncoding`, anything else is refused without calling the engine. -/
def CharEncoding {σ : Type} (E : Engine σ) (this : Tidy σ) (val : Int) : Result × Tidy σ :=
  if val = Raw ∨ val = Ascii ∨ val = Latin0 ∨ val = Latin1 ∨ val = Utf8 ∨ val = Iso2022 ∨
      val = Mac ∨ val = Win1252 ∨ val = Ibm858 ∨ val = Utf16le ∨ val = Utf16be ∨
      val = Utf16 ∨ val = Big5 ∨ val = Shiftjis then
    optSetInt E this .TidyCharEncoding (toCUlong val)
  else ((false, some "Argument val int is out of range (0-13)"), this)

/-- Setter `InputEncoding`: the `switch` on `val`; a listed value goes to `optSetInt` on
`TidyInCharEncoding`, anything else is refused without calling the engine. -/
def InputEncoding {σ : Type} (E : Engine σ) (this : Tidy σ) (val : Int) : Result × Tidy σ :=
  if val = Raw ∨ val = Ascii ∨ val = Latin0 ∨ val = Latin1 ∨ val = Utf8 ∨ val = Iso2022 ∨
      val = Mac ∨ val = Win1252 ∨ val = Ibm858 ∨ val = Utf16le ∨ val = Utf16be ∨
      val = Utf16 ∨ val = Big5 ∨ val = Shiftjis then
    optSetInt E this .TidyInCharEncoding (toCUlong val)
  else ((false, some "Argument val int is out of range (0-13)"), this)

/-- Setter `Newline`: the `switch` on `val`; a listed value goes to `optSetInt` on
`TidyNewline`, anything else is refused without calling the engine. -/
def Newline {σ : Type} (E : Engine σ) (this : Tidy σ) (val : Int) : Result × Tidy σ :=
  if val = LF ∨ val = CRLF ∨ val = CR then
    optSetInt E this .TidyNewline (toCUlong val)
  else ((false, some "Argument val int is out of range (0,1,2)"), this)

/-- Setter `OutputBom`: tri-state option `TidyOutputBOM`. -/
def OutputBom {σ : Type} (E : Engine σ) (this : Tidy σ) (val : Int) : Result × Tidy σ :=
  optSetAutoBool E this .TidyOutputBOM (toCUlong val)

/-- Setter `OutputEncoding`: the `switch` on `val`; a listed value goes to `optSetInt` on
`TidyOutCharEncoding`, anything else is refused without calling the engine. -/
def OutputEncoding {σ : Type} (E : Engine σ) (this : Tidy σ) (val : Int) : Result × Tidy σ :=
  if val = Raw ∨ val = Ascii ∨ val = Latin0 ∨ val = Latin1 ∨ val = Utf8 ∨ val = Iso2022 ∨
      val = Mac ∨ val = Win1252 ∨ val = Ibm858 ∨ val = Utf16le ∨ val = Utf16be ∨
      val = Utf16 ∨ val = Big5 ∨ val = Shiftjis then
    optSetInt E this .TidyOutCharEncoding (toCUlong val)
  else ((false, some "Argument val int is out of range (0-13)"), this)

/-- Setter `ErrorFile`: `C.CString(val)` handed to string option `TidyErrFile`. -/
def ErrorFile {σ : Type} (E : Engine σ) (this : Tidy σ) (val : String) : Result × Tidy σ :=
  let v := CString val
  optSetString E this .TidyErrFile v

/-- Setter `ForceOutput`: boolean option `TidyForceOutput`. -/
def ForceOutput {σ : Type} (E : Engine σ) (this : Tidy σ) (val : Bool) :
    Option (Result × Tidy σ) :=
  optSetBool E this .TidyForceOutput (cBool val)

/-- Setter `GnuEmacs`: boolean option `TidyEmacs`. -/
def GnuEmacs {σ : Type} (E : Engine σ) (this : Tidy σ) (val : Bool) :
    Option (Result × Tidy σ) :=
  optSetBool E this .TidyEmacs (cBool val)

/-- Setter `GnuEmacsFile`: `C.CString(val)` handed to string option `TidyEmacsFile`. -/
def GnuEmacsFile {σ : Type} (E : Engine σ) (this : Tidy σ) (val : String) : Result × Tidy σ :=
  let v := CString val
  optSetString E this .TidyEmacsFile v

/-- Setter `KeepTime`: boolean option `TidyKeepFileTimes`. -/
def KeepTime {σ : Type} (E : Engine σ) (this : Tidy σ) (val : Bool) :
    Option (Result × Tidy σ) :=
  optSetBool E this .TidyKeepFileTimes (cBool val)

/-- Setter `OutputFile`: `C.CString(val)` handed to string option `TidyOutFile`. -/
def OutputFile {σ : Type} (E : Engine σ) (this : Tidy σ) (val : String) : Result × Tidy σ :=
  let v := CString val
  optSetString E this .TidyOutFile v

/-- Setter `Quiet`: boolean option `TidyQuiet`. -/
def Quiet {σ : Type} (E : Engine σ) (this : Tidy σ) (val : Bool) :
    Option (Result × Tidy σ) :=
  optSetBool E this .TidyQuiet (cBool val)

/-- Setter `TidyMark`: boolean option `TidyMark`. -/
def TidyMark {σ : Type} (E : Engine σ) (this : Tidy σ) (val : Bool) :
    Option (Result × Tidy σ) :=
  optSetBool E this .TidyMark (cBool val)

/-- Setter `WriteBack`: boolean option `TidyWriteBack`. -/
def WriteBack {σ : Type} (E : Engine σ) (this : Tidy σ) (val : Bool) :
    Option (Result × Tidy σ) :=
  optSetBool E this .TidyWriteBack (cBool val)

/-! ## The setter table -/

/-- The public setter methods of `*Tidy` declared in `options.go`, by name. -/
inductive Setter where
  | AddXmlDecl | AddXmlSpace | AltText | AssumeXmlProcins | Bare | Clean | CssPrefix
  | DecorateInferredUl | Doctype | DropEmptyParas | DropProprietaryAttributes
  | EncloseBlockText | EncloseText | EscapeCdata | FixBackslash | FixBadComments | FixUri
  | HideComments | IndentCdata | InputXml | JoinClasses | JoinStyles | LiteralAttributes
  | LogicalEmphasis | LowerLiterals | MergeDivs | Ncr | NewBlocklevelTags | NewEmptyTags
  | NewInlineTags | NewPreTags | NumericEntities | OutputHtml | OutputXhtml | OutputXml
  | QuoteAmpersand | QuoteMarks | QuoteNbsp | RepeatedAttributes | ReplaceColor
  | ShowBodyOnly | UppercaseAttributes | UppercaseTags | Word2000 | AccessibilityCheck
  | ShowErrors | ShowWarnings | BreakBeforeBr | Indent | IndentAttributes | IndentSpaces
  | Markup | PunctuationWrap | TabSize | VerticalSpace | Wrap | WrapAsp | WrapAttributes
  | WrapJste | WrapPhp | WrapScriptLiterals | WrapSections | AsciiChars | CharEncoding
  | InputEncoding | Newline | OutputBom | OutputEncoding | ErrorFile | ForceOutput | GnuEmacs
  | GnuEmacsFile | KeepTime | OutputFile | Quiet | TidyMark | WriteBack
  deriving DecidableEq, Repr

/-- The symbolic id (`C.Tidy...` constant) each public setter passes to its dispatch
primitive, read off the setter bodies. -/
def Setter.optionId : Setter → TidyOptionId
  | .AddXmlDecl => .TidyXmlDecl
  | .AddXmlSpace => .TidyXmlSpace
  | .AltText => .TidyXmlSpace
  | .AssumeXmlProcins => .TidyXmlPIs
  | .Bare => .TidyMakeBare
  | .Clean => .TidyMakeClean
  | .CssPrefix => .TidyCSSPrefix
  | .DecorateInferredUl => .TidyDecorateInferredUL
  | .Doctype => .TidyDoctype
  | .DropEmptyParas => .TidyDropEmptyParas
  | .DropProprietaryAttributes => .TidyDropPropAttrs
  | .EncloseBlockText => .TidyEncloseBlockText
  | .EncloseText => .TidyEncloseBodyText
  | .EscapeCdata => .TidyEscapeCdata
  | .FixBackslash => .TidyFixBackslash
  | .FixBadComments => .TidyFixComments
  | .FixUri => .TidyFixUri
  | .HideComments => .TidyHideComments
  | .IndentCdata => .TidyIndentCdata
  | .InputXml => .TidyXmlTags
  | .JoinClasses => .TidyJoinClasses
  | .JoinStyles => .TidyJoinStyles
  | .LiteralAttributes => .TidyLiteralAttribs
  | .LogicalEmphasis => .TidyLogicalEmphasis
  | .LowerLiterals => .TidyLowerLiterals
  | .MergeDivs => .TidyMergeDivs
  | .Ncr => .TidyNCR
  | .NewBlocklevelTags => .TidyBlockTags
  | .NewEmptyTags => .TidyEmptyTags
  | .NewInlineTags => .TidyInlineTags
  | .NewPreTags => .TidyPreTags
  | .NumericEntities => .TidyNumEntities
  | .OutputHtml => .TidyHtmlOut
  | .OutputXhtml => .TidyXhtmlOut
  | .OutputXml => .TidyXmlOut
  | .QuoteAmpersand => .TidyQuoteAmpersand
  | .QuoteMarks => .TidyQuoteMarks
  | .QuoteNbsp => .TidyQuoteNbsp
  | .RepeatedAttributes => .TidyDuplicateAttrs
  | .ReplaceColor => .TidyReplaceColor
  | .ShowBodyOnly => .TidyBodyOnly
  | .UppercaseAttributes => .TidyUpperCaseAttrs
  | .UppercaseTags => .TidyUpperCaseTags
  | .Word2000 => .TidyWord2000
  | .AccessibilityCheck => .TidyAccessibilityCheckLevel
  | .ShowErrors => .TidyShowErrors
  | .ShowWarnings => .TidyShowWarnings
  | .BreakBeforeBr => .TidyBreakBeforeBR
  | .Indent => .TidyIndentContent
  | .IndentAttributes => .TidyIndentAttributes
  | .IndentSpaces => .TidyIndentSpaces
  | .Markup => .TidyShowMarkup
  | .PunctuationWrap => .TidyPunctWrap
  | .TabSize => .TidyTabSize
  | .VerticalSpace => .TidyVertSpace
  | .Wrap => .TidyWrapLen
  | .WrapAsp => .TidyWrapAsp
  | .WrapAttributes => .TidyWrapAttVals
  | .WrapJste => .TidyWrapJste
  | .WrapPhp => .TidyWrapPhp
  | .WrapScriptLiterals => .TidyWrapScriptlets
  | .WrapSections => .TidyWrapSection
  | .AsciiChars => .TidyAsciiChars
  | .CharEncoding => .TidyCharEncoding
  | .InputEncoding => .TidyInCharEncoding
  | .Newline => .TidyNewline
  | .OutputBom => .TidyOutputBOM
  | .OutputEncoding => .TidyOutCharEncoding
  | .ErrorFile => .TidyErrFile
  | .ForceOutput => .TidyForceOutput
  | .GnuEmacs => .TidyEmacs
  | .GnuEmacsFile => .TidyEmacsFile
  | .KeepTime => .TidyKeepFileTimes
  | .OutputFile => .TidyOutFile
  | .Quiet => .TidyQuiet
  | .TidyMark => .TidyMark
  | .WriteBack => .TidyWriteBack

/-! ## A test double of the engine -/

/-- A value held by the test double for one option. -/
inductive Val where
  | num (v : Nat)
  | text (v : List Char)
  deriving DecidableEq, Repr

/-- State of the test double: the options that were set, with the value held. -/
abbrev Store := List (TidyOptionId × Val)

/-- The value the store holds for `opt`, if it was ever set. -/
def Store.get (s : Store) (opt : TidyOptionId) : Option Val :=
  (s.find? (fun p => decide (p.1 = opt))).map (fun p => p.2)

/-- The store after `opt` is given the value `v`; other options are untouched. -/
def Store.set (s : Store) (opt : TidyOptionId) (v : Val) : Store :=
  (opt, v) :: s.filter (fun p => decide (p.1 ≠ opt))

/-- A test double of the engine: it accepts and stores every value it is handed,
each set entry point answers the fixed code `reply`, and `tidySetErrorBuffer`
leaves the buffer as it is and answers the fixed status `status`. -/
def storeEngine (reply status : Int) : Engine Store where
  tidyOptSetInt := fun s opt v => (s.set opt (Val.num v), reply)
  tidyOptSetBool := fun s opt v => (s.set opt (Val.num v), reply)
  tidyOptSetValue := fun s opt v => (s.set opt (Val.text v), reply)
  tidySetErrorBuffer := fun s buf => ((s, buf), status)

/-- A handle on the test double on which no option was set yet and no call was
made, with an empty diagnostic buffer. -/
def fresh : Tidy Store := { tdoc := [], errbuf := { bp := [], size := 0 }, calls := [] }

/-- A handle on the test double that holds the number `v` for `opt` and nothing
else, with the diagnostic text "bad value" in its buffer and no call made yet. -/
def holding (opt : TidyOptionId) (v : Nat) : Tidy Store :=
  { tdoc := [(opt, Val.num v)], errbuf := { bp := "bad value".data, size := 9 }, calls := [] }

/-- A second test double: an engine that refuses every value. Its set entry points
leave the stored values as they are and answer the fixed code `reply`;
`tidySetErrorBuffer` leaves the buffer as it is and answers `status`. -/
def rejectEngine (reply status : Int) : Engine Store where
  tidyOptSetInt := fun s _ _ => (s, reply)
  tidyOptSetBool := fun s _ _ => (s, reply)
  tidyOptSetValue := fun s _ _ => (s, reply)
  tidySetErrorBuffer := fun s buf => ((s, buf), status)

/-! ## The setters by kind of argument -/

/-- The method behind a setter name, for the setters declared with a `bool` argument
(the plain boolean setters); `none` for the other names. -/
def Setter.boolSetter {σ : Type} (E : Engine σ) :
    Setter → Option (Tidy σ → Bool → Option (Result × Tidy σ))
  | .AddXmlDecl => some (GoTidy.AddXmlDecl E)
  | .AddXmlSpace => some (GoTidy.AddXmlSpace E)
  | .AssumeXmlProcins => some (GoTidy.AssumeXmlProcins E)
  | .Bare => some (GoTidy.Bare E)
  | .Clean => some (GoTidy.Clean E)
  | .DecorateInferredUl => some (GoTidy.DecorateInferredUl E)
  | .DropEmptyParas => some (GoTidy.DropEmptyParas E)
  | .DropProprietaryAttributes => some (GoTidy.DropProprietaryAttributes E)
  | .EncloseBlockText => some (GoTidy.EncloseBlockText E)
  | .EncloseText => some (GoTidy.EncloseText E)
  | .EscapeCdata => some (GoTidy.EscapeCdata E)
  | .FixBackslash => some (GoTidy.FixBackslash E)
  | .FixBadComments => some (GoTidy.FixBadComments E)
  | .FixUri => some (GoTidy.FixUri E)
  | .HideComments => some (GoTidy.HideComments E)
  | .IndentCdata => some (GoTidy.IndentCdata E)
  | .InputXml => some (GoTidy.InputXml E)
  | .JoinClasses => some (GoTidy.JoinClasses E)
  | .JoinStyles => some (GoTidy.JoinStyles E)
  | .LiteralAttributes => some (GoTidy.LiteralAttributes E)
  | .LogicalEmphasis => some (GoTidy.LogicalEmphasis E)
  | .LowerLiterals => some (GoTidy.LowerLiterals E)
  | .Ncr => some (GoTidy.Ncr E)
  | .NumericEntities => some (GoTidy.NumericEntities E)
  | .OutputHtml => some (GoTidy.OutputHtml E)
  | .OutputXhtml => some (GoTidy.OutputXhtml E)
  | .OutputXml => some (GoTidy.OutputXml E)
  | .QuoteAmpersand => some (GoTidy.QuoteAmpersand E)
  | .QuoteMarks => some (GoTidy.QuoteMarks E)
  | .QuoteNbsp => some (GoTidy.QuoteNbsp E)
  | .ReplaceColor => some (GoTidy.ReplaceColor E)
  | .UppercaseAttributes => some (GoTidy.UppercaseAttributes E)
  | .UppercaseTags => some (GoTidy.UppercaseTags E)
  | .Word2000 => some (GoTidy.Word2000 E)
  | .ShowWarnings => some (GoTidy.ShowWarnings E)
  | .BreakBeforeBr => some (GoTidy.BreakBeforeBr E)
  | .IndentAttributes => some (GoTidy.IndentAttributes E)
  | .Markup => some (GoTidy.Markup E)
  | .PunctuationWrap => some (GoTidy.PunctuationWrap E)
  | .VerticalSpace => some (GoTidy.VerticalSpace E)
  | .WrapAsp => some (GoTidy.WrapAsp E)
  | .WrapAttributes => some (GoTidy.WrapAttributes E)
  | .WrapJste => some (GoTidy.WrapJste E)
  | .WrapPhp => some (GoTidy.WrapPhp E)
  | .WrapScriptLiterals => some (GoTidy.WrapScriptLiterals E)
  | .WrapSections => some (GoTidy.WrapSections E)
  | .AsciiChars => some (GoTidy.AsciiChars E)
  | .ForceOutput => some (GoTidy.ForceOutput E)
  | .GnuEmacs => some (GoTidy.GnuEmacs E)
  | .KeepTime => some (GoTidy.KeepTime E)
  | .Quiet => some (GoTidy.Quiet E)
  | .TidyMark => some (GoTidy.TidyMark E)
  | .WriteBack => some (GoTidy.WriteBack E)
  | _ => none

/-- The method behind a setter name, for the setters declared with an `int` argument
(tri-state, enumerated and unconstrained integer setters); `none` for the other
names. -/
def Setter.intSetter {σ : Type} (E : Engine σ) :
    Setter → Option (Tidy σ → Int → Result × Tidy σ)
  | .MergeDivs => some (GoTidy.MergeDivs E)
  | .RepeatedAttributes => some (GoTidy.RepeatedAttributes E)
  | .ShowBodyOnly => some (GoTidy.ShowBodyOnly E)
  | .AccessibilityCheck => some (GoTidy.AccessibilityCheck E)
  | .ShowErrors => some (GoTidy.ShowErrors E)
  | .Indent => some (GoTidy.Indent E)
  | .IndentSpaces => some (GoTidy.IndentSpaces E)
  | .TabSize => some (GoTidy.TabSize E)
  | .Wrap => some (GoTidy.Wrap E)
  | .CharEncoding => some (GoTidy.CharEncoding E)
  | .InputEncoding => some (GoTidy.InputEncoding E)
  | .Newline => some (GoTidy.Newline E)
  | .OutputBom => some (GoTidy.OutputBom E)
  | .OutputEncoding => some (GoTidy.OutputEncoding E)
  | _ => none

/-- The method behind a setter name, for the setters declared with a `string`
argument; `none` for the other names. -/
def Setter.stringSetter {σ : Type} (E : Engine σ) :
    Setter → Option (Tidy σ → String → Result × Tidy σ)
  | .AltText => some (GoTidy.AltText E)
  | .CssPrefix => some (GoTidy.CssPrefix E)
  | .Doctype => some (GoTidy.Doctype E)
  | .NewBlocklevelTags => some (GoTidy.NewBlocklevelTags E)
  | .NewEmptyTags => some (GoTidy.NewEmptyTags E)
  | .NewInlineTags => some (GoTidy.NewInlineTags E)
  | .NewPreTags => some (GoTidy.NewPreTags E)
  | .ErrorFile => some (GoTidy.ErrorFile E)
  | .GnuEmacsFile => some (GoTidy.GnuEmacsFile E)
  | .OutputFile => some (GoTidy.OutputFile E)
  | _ => none

/-- A handle on the test double whose diagnostic buffer reports `size` bytes of the
text "bad value", with nothing stored and no call made yet. -/
def reporting (size : Nat) : Tidy Store :=
  { tdoc := [], errbuf := { bp := "bad value".data, size := size }, calls := [] }

/-- A handle on the test double whose diagnostic buffer holds and reports 2^31
bytes of text, with nothing stored and no call made yet. -/
def bulk : Tidy Store :=
  { tdoc := [],
    errbuf := { bp := List.replicate 2147483648 (Char.ofNat 120), size := 2147483648 },
    calls := [] }

/-! ## The diagnostic buffer as memory shared with the engine

`optSetBool` hands the engine `&this.errbuf`. An engine that keeps that pointer
can write the buffer during any later call, which `Engine` cannot express: its
set entry points do not see the buffer. The definitions below embed the integer,
string and boolean paths once more over an engine that can: every entry point is
given the content of the buffer and returns the content it leaves, and what a
set entry point leaves takes effect on a handle whose buffer was handed to the
engine. `Engine` is the special case of an engine that writes the buffer only
inside `tidySetErrorBuffer` (see `Engine.toShared`). -/

/-- The four engine entry points over an engine state `σ` and the diagnostic buffer
of the handle: each is given the content of the buffer and returns the new
engine state, the content it leaves in the buffer, and the C return value. -/
structure SharedEngine (σ : Type) where
  tidyOptSetInt : σ → TidyBuffer → TidyOptionId → Nat → (σ × TidyBuffer) × Int
  tidyOptSetBool : σ → TidyBuffer → TidyOptionId → Nat → (σ × TidyBuffer) × Int
  tidyOptSetValue : σ → TidyBuffer → TidyOptionId → List Char → (σ × TidyBuffer) × Int
  tidySetErrorBuffer : σ → TidyBuffer → (σ × TidyBuffer) × Int

/-- The receiver `*Tidy` with its buffer as shared memory: `tdoc`, `errbuf`, the
call log, and `captured`, which records whether `&this.errbuf` was handed to the
engine by a `tidySetErrorBuffer` call on this handle. -/
structure SharedTidy (σ : Type) where
  tdoc : σ
  errbuf : TidyBuffer
  captured : Bool
  calls : List Call

/-- The handle after a set entry point returned `r` and the call `c` was logged:
the buffer holds what the engine left only if the engine was handed the buffer
before; otherwise the engine cannot reach it and it is as it was. -/
def SharedTidy.afterSet {σ : Type} (this : SharedTidy σ) (r : (σ × TidyBuffer) × Int)
    (c : Call) : SharedTidy σ :=
  { tdoc := r.1.1,
    errbuf := if this.captured = true then r.1.2 else this.errbuf,
    captured := this.captured,
    calls := this.calls ++ [c] }

/-- Primitive `optSetInt` over the shared buffer: calls `C.tidyOptSetInt`;
`false, nil` when it returns `1`, otherwise `true, nil`. -/
def Shared.optSetInt {σ : Type} (E : SharedEngine σ) (this : SharedTidy σ)
    (opt : TidyOptionId) (val : Nat) : Result × SharedTidy σ :=
  let r := E.tidyOptSetInt this.tdoc this.errbuf opt val
  let this1 := this.afterSet r (Call.tidyOptSetInt opt val)
  if r.2 = 1 then ((false, none), this1) else ((true, none), this1)

/-- Primitive `optSetString` over the shared buffer: calls `C.tidyOptSetValue`;
`false, nil` when it returns `1`, otherwise `true, nil`. -/
def Shared.optSetString {σ : Type} (E : SharedEngine σ) (this : SharedTidy σ)
    (opt : TidyOptionId) (val : List Char) : Result × SharedTidy σ :=
  let r := E.tidyOptSetValue this.tdoc this.errbuf opt val
  let this1 := this.afterSet r (Call.tidyOptSetValue opt val)
  if r.2 = 1 then ((false, none), this1) else ((true, none), this1)

/-- Primitive `optSetBool` over the shared buffer: calls `C.tidyOptSetBool`; when
it returns `1`, calls `C.tidySetErrorBuffer` on `&this.errbuf`, which hands the
buffer to the engine, and, if that returns a non-zero status, returns `false`
with an error made of the first `errbuf.size` bytes at `errbuf.bp`; in every
other case returns `true, nil`. The result is `none` when `C.GoStringN` panics. -/
def Shared.optSetBool {σ : Type} (E : SharedEngine σ) (this : SharedTidy σ)
    (opt : TidyOptionId) (val : Nat) : Option (Result × SharedTidy σ) :=
  let r := E.tidyOptSetBool this.tdoc this.errbuf opt val
  let this1 := this.afterSet r (Call.tidyOptSetBool opt val)
  if r.2 = 1 then
    let c := E.tidySetErrorBuffer this1.tdoc this1.errbuf
    let this2 : SharedTidy σ :=
      { tdoc := c.1.1, errbuf := c.1.2, captured := true,
        calls := this1.calls ++ [Call.tidySetErrorBuffer] }
    let rc : Int := c.2
    if rc ≠ 0 then
      match GoStringN this2.errbuf.bp (toCInt this2.errbuf.size) with
      | some msg => some ((false, some msg), this2)
      | none => none
    else some ((true, none), this2)
  else some ((true, none), this1)

/-- Primitive `optSetAutoBool` over the shared buffer: the `switch` on the converted
value; the three tri-state codes go to `optSetInt`, anything else is refused
without calling the engine. -/
def Shared.optSetAutoBool {σ : Type} (E : SharedEngine σ) (this : SharedTidy σ)
    (opt : TidyOptionId) (val : Nat) : Result × SharedTidy σ :=
  if val = Autobool_false ∨ val = Autobool_true ∨ val = Autobool_auto then
    Shared.optSetInt E this opt val
  else ((false, some "Argument val int is out of range (0,1,2)"), this)

/-- Setter `AltText` over the shared buffer: string option `TidyXmlSpace`. -/
def Shared.AltText {σ : Type} (E : SharedEngine σ) (this : SharedTidy σ)
    (val : String) : Result × SharedTidy σ :=
  let v := CString val
  Shared.optSetString E this .TidyXmlSpace v

/-- Setter `CssPrefix` over the shared buffer: string option `TidyCSSPrefix`. -/
def Shared.CssPrefix {σ : Type} (E : SharedEngine σ) (this : SharedTidy σ)
    (val : String) : Result × SharedTidy σ :=
  let v := CString val
  Shared.optSetString E this .TidyCSSPrefix v

/-- Setter `Doctype` over the shared buffer: string option `TidyDoctype`. -/
def Shared.Doctype {σ : Type} (E : SharedEngine σ) (this : SharedTidy σ)
    (val : String) : Result × SharedTidy σ :=
  let v := CString val
  Shared.optSetString E this .TidyDoctype v

/-- Setter `MergeDivs` over the shared buffer: tri-state option `TidyMergeDivs`. -/
def Shared.MergeDivs {σ : Type} (E : SharedEngine σ) (this : SharedTidy σ)
    (val : Int) : Result × SharedTidy σ :=
  Shared.optSetAutoBool E this .TidyMergeDivs (toCUlong val)

/-- Setter `NewBlocklevelTags` over the shared buffer: string option `TidyBlockTags`. -/
def Shared.NewBlocklevelTags {σ : Type} (E : SharedEngine σ) (this : SharedTidy σ)
    (val : String) : Result × SharedTidy σ :=
  let v := CString val
  Shared.optSetString E this .TidyBlockTags v

/-- Setter `NewEmptyTags` over the shared buffer: string option `TidyEmptyTags`. -/
def Shared.NewEmptyTags {σ : Type} (E : SharedEngine σ) (this : SharedTidy σ)
    (val : String) : Result × SharedTidy σ :=
  let v := CString val
  Shared.optSetString E this .TidyEmptyTags v

/-- Setter `NewInlineTags` over the shared buffer: string option `TidyInlineTags`. -/
def Shared.NewInlineTags {σ : Type} (E : SharedEngine σ) (this : SharedTidy σ)
    (val : String) : Result × SharedTidy σ :=
  let v := CString val
  Shared.optSetString E this .TidyInlineTags v

/-- Setter `NewPreTags` over the shared buffer: string option `TidyPreTags`. -/
def Shared.NewPreTags {σ : Type} (E : SharedEngine σ) (this : SharedTidy σ)
    (val : String) : Result × SharedTidy σ :=
  let v := CString val
  Shared.optSetString E this .TidyPreTags v

/-- Setter `RepeatedAttributes` over the shared buffer: the `switch` on `val`; a listed value
goes to `optSetInt` on `TidyDuplicateAttrs`, anything else is refused. -/
def Shared.RepeatedAttributes {σ : Type} (E : SharedEngine σ) (this : SharedTidy σ)
    (val : Int) : Result × SharedTidy σ :=
  if val = KeepFirst ∨ val = KeepLast then
    Shared.optSetInt E this .TidyDuplicateAttrs (toCUlong val)
  else ((false, some "Argument val int is out of range (0,1)"), this)

/-- Setter `ShowBodyOnly` over the shared buffer: tri-state option `TidyBodyOnly`. -/
def Shared.ShowBodyOnly {σ : Type} (E : SharedEngine σ) (this : SharedTidy σ)
    (val : Int) : Result × SharedTidy σ :=
  Shared.optSetAutoBool E this .TidyBodyOnly (toCUlong val)

/-- Setter `AccessibilityCheck` over the shared buffer: the `switch` on `val`; a listed value
goes to `optSetInt` on `TidyAccessibilityCheckLevel`, anything else is refused. -/
def Shared.AccessibilityCheck {σ : Type} (E : SharedEngine σ) (this : SharedTidy σ)
    (val : Int) : Result × SharedTidy σ :=
  if val = TidyClassic ∨ val = Priority1Checks ∨ val = Priority2Checks ∨
      val = Priority3Checks then
    Shared.optSetInt E this .TidyAccessibilityCheckLevel (toCUlong val)
  else ((false, some "Argument val int is out of range (0,1,2,3)"), this)

/-- Setter `ShowErrors` over the shared buffer: integer option `TidyShowErrors`, no validation. -/
def Shared.ShowErrors {σ : Type} (E : SharedEngine σ) (this : SharedTidy σ)
    (val : Int) : Result × SharedTidy σ :=
  Shared.optSetInt E this .TidyShowErrors (toCUlong val)

/-- Setter `Indent` over the shared buffer: tri-state option `TidyIndentContent`. -/
def Shared.Indent {σ : Type} (E : SharedEngine σ) (this : SharedTidy σ)
    (val : Int) : Result × SharedTidy σ :=
  Shared.optSetAutoBool E this .TidyIndentContent (toCUlong val)

/-- Setter `IndentSpaces` over the shared buffer: integer option `TidyIndentSpaces`, no validation. -/
def Shared.IndentSpaces {σ : Type} (E : SharedEngine σ) (this : SharedTidy σ)
    (val : Int) : Result × SharedTidy σ :=
  Shared.optSetInt E this .TidyIndentSpaces (toCUlong val)

/-- Setter `TabSize` over the shared buffer: integer option `TidyTabSize`, no validation. -/
def Shared.TabSize {σ : Type} (E : SharedEngine σ) (this : SharedTidy σ)
    (val : Int) : Result × SharedTidy σ :=
  Shared.optSetInt E this .TidyTabSize (toCUlong val)

/-- Setter `Wrap` over the shared buffer: integer option `TidyWrapLen`, no validation. -/
def Shared.Wrap {σ : Type} (E : SharedEngine σ) (this : SharedTidy σ)
    (val : Int) : Result × SharedTidy σ :=
  Shared.optSetInt E this .TidyWrapLen (toCUlong val)

/-- Setter `CharEncoding` over the shared buffer: the `switch` on `val`; a listed value
goes to `optSetInt` on `TidyCharEncoding`, anything else is refused. -/
def Shared.CharEncoding {σ : Type} (E : SharedEngine σ) (this : SharedTidy σ)
    (val : Int) : Result × SharedTidy σ :=
  if val = Raw ∨ val = Ascii ∨ val = Latin0 ∨ val = Latin1 ∨ val = Utf8 ∨ val = Iso2022 ∨
      val = Mac ∨ val = Win1252 ∨ val = Ibm858 ∨ val = Utf16le ∨ val = Utf16be ∨
      val = Utf16 ∨ val = Big5 ∨ val = Shiftjis then
    Shared.optSetInt E this .TidyCharEncoding (toCUlong val)
  else ((false, some "Argument val int is out of range (0-13)"), this)

/-- Setter `InputEncoding` over the shared buffer: the `switch` on `val`; a listed value
goes to `optSetInt` on `TidyInCharEncoding`, anything else is refused. -/
def Shared.InputEncoding {σ : Type} (E : SharedEngine σ) (this : SharedTidy σ)
    (val : Int) : Result × SharedTidy σ :=
  if val = Raw ∨ val = Ascii ∨ val = Latin0 ∨ val = Latin1 ∨ val = Utf8 ∨ val = Iso2022 ∨
      val = Mac ∨ val = Win1252 ∨ val = Ibm858 ∨ val = Utf16le ∨ val = Utf16be ∨
      val = Utf16 ∨ val = Big5 ∨ val = Shiftjis then
    Shared.optSetInt E this .TidyInCharEncoding (toCUlong val)
  else ((false, some "Argument val int is out of range (0-13)"), this)

/-- Setter `Newline` over the shared buffer: the `switch` on `val`; a listed value
goes to `optSetInt` on `TidyNewline`, anything else is refused. -/
def Shared.Newline {σ : Type} (E : SharedEngine σ) (this : SharedTidy σ)
    (val : Int) : Result × SharedTidy σ :=
  if val = LF ∨ val = CRLF ∨ val = CR then
    Shared.optSetInt E this .TidyNewline (toCUlong val)
  else ((false, some "Argument val int is out of range (0,1,2)"), this)

/-- Setter `OutputBom` over the shared buffer: tri-state option `TidyOutputBOM`. -/
def Shared.OutputBom {σ : Type} (E : SharedEngine σ) (this : SharedTidy σ)
    (val : Int) : Result × SharedTidy σ :=
  Shared.optSetAutoBool E this .TidyOutputBOM (toCUlong val)

/-- Setter `OutputEncoding` over the shared buffer: the `switch` on `val`; a listed value
goes to `optSetInt` on `TidyOutCharEncoding`, anything else is refused. -/
def Shared.OutputEncoding {σ : Type} (E : SharedEngine σ) (this : SharedTidy σ)
    (val : Int) : Result × SharedTidy σ :=
  if val = Raw ∨ val = Ascii ∨ val = Latin0 ∨ val = Latin1 ∨ val = Utf8 ∨ val = Iso2022 ∨
      val = Mac ∨ val = Win1252 ∨ val = Ibm858 ∨ val = Utf16le ∨ val = Utf16be ∨
      val = Utf16 ∨ val = Big5 ∨ val = Shiftjis then
    Shared.optSetInt E this .TidyOutCharEncoding (toCUlong val)
  else ((false, some "Argument val int is out of range (0-13)"), this)

/-- Setter `ErrorFile` over the shared buffer: string option `TidyErrFile`. -/
def Shared.ErrorFile {σ : Type} (E : SharedEngine σ) (this : SharedTidy σ)
    (val : String) : Result × SharedTidy σ :=
  let v := CString val
  Shared.optSetString E this .TidyErrFile v

/-- Setter `GnuEmacsFile` over the shared buffer: string option `TidyEmacsFile`. -/
def Shared.GnuEmacsFile {σ : Type} (E : SharedEngine σ) (this : SharedTidy σ)
    (val : String) : Result × SharedTidy σ :=
  let v := CString val
  Shared.optSetString E this .TidyEmacsFile v

/-- Setter `OutputFile` over the shared buffer: string option `TidyOutFile`. -/
def Shared.OutputFile {σ : Type} (E : SharedEngine σ) (this : SharedTidy σ)
    (val : String) : Result × SharedTidy σ :=
  let v := CString val
  Shared.optSetString E this .TidyOutFile v

/-- The method over the shared buffer behind a setter name, for the setters declared
with an `int` argument; `none` for the other names. -/
def Shared.intSetter {σ : Type} (E : SharedEngine σ) :
    Setter → Option (SharedTidy σ → Int → Result × SharedTidy σ)
  | .MergeDivs => some (Shared.MergeDivs E)
  | .RepeatedAttributes => some (Shared.RepeatedAttributes E)
  | .ShowBodyOnly => some (Shared.ShowBodyOnly E)
  | .AccessibilityCheck => some (Shared.AccessibilityCheck E)
  | .ShowErrors => some (Shared.ShowErrors E)
  | .Indent => some (Shared.Indent E)
  | .IndentSpaces => some (Shared.IndentSpaces E)
  | .TabSize => some (Shared.TabSize E)
  | .Wrap => some (Shared.Wrap E)
  | .CharEncoding => some (Shared.CharEncoding E)
  | .InputEncoding => some (Shared.InputEncoding E)
  | .Newline => some (Shared.Newline E)
  | .OutputBom => some (Shared.OutputBom E)
  | .OutputEncoding => some (Shared.OutputEncoding E)
  | _ => none

/-- The method over the shared buffer behind a setter name, for the setters declared
with a `string` argument; `none` for the other names. -/
def Shared.stringSetter {σ : Type} (E : SharedEngine σ) :
    Setter → Option (SharedTidy σ → String → Result × SharedTidy σ)
  | .AltText => some (Shared.AltText E)
  | .CssPrefix => some (Shared.CssPrefix E)
  | .Doctype => some (Shared.Doctype E)
  | .NewBlocklevelTags => some (Shared.NewBlocklevelTags E)
  | .NewEmptyTags => some (Shared.NewEmptyTags E)
  | .NewInlineTags => some (Shared.NewInlineTags E)
  | .NewPreTags => some (Shared.NewPreTags E)
  | .ErrorFile => some (Shared.ErrorFile E)
  | .GnuEmacsFile => some (Shared.GnuEmacsFile E)
  | .OutputFile => some (Shared.OutputFile E)
  | _ => none

/-- An engine of the first interface seen as an engine over the shared buffer: its
set entry points leave the buffer as they find it. -/
def Engine.toShared {σ : Type} (E : Engine σ) : SharedEngine σ where
  tidyOptSetInt := fun s buf opt v =>
    (((E.tidyOptSetInt s opt v).1, buf), (E.tidyOptSetInt s opt v).2)
  tidyOptSetBool := fun s buf opt v =>
    (((E.tidyOptSetBool s opt v).1, buf), (E.tidyOptSetBool s opt v).2)
  tidyOptSetValue := fun s buf opt v =>
    (((E.tidyOptSetValue s opt v).1, buf), (E.tidyOptSetValue s opt v).2)
  tidySetErrorBuffer := E.tidySetErrorBuffer

/-- A handle of the first model seen as a handle over the shared buffer, with the
given record of whether the buffer was handed to the engine. -/
def Tidy.toShared {σ : Type} (this : Tidy σ) (captured : Bool) : SharedTidy σ :=
  { tdoc := this.tdoc, errbuf := this.errbuf, captured := captured, calls := this.calls }

/-- A test double over the shared buffer: an engine that refuses every value and
reports it. Its set entry points leave the stored values as they are, write the
text "bad value" to the buffer and answer the fixed code `reply`;
`tidySetErrorBuffer` leaves the buffer as it is and answers `status`. -/
def diagEngine (reply status : Int) : SharedEngine Store where
  tidyOptSetInt := fun s _ _ _ => ((s, { bp := "bad value".data, size := 9 }), reply)
  tidyOptSetBool := fun s _ _ _ => ((s, { bp := "bad value".data, size := 9 }), reply)
  tidyOptSetValue := fun s _ _ _ => ((s, { bp := "bad value".data, size := 9 }), reply)
  tidySetErrorBuffer := fun s buf => ((s, buf), status)

/-- A handle over the shared buffer on which nothing was set, no call was made and
the empty buffer was not handed to the engine. -/
def sharedFresh : SharedTidy Store :=
  { tdoc := [], errbuf := { bp := [], size := 0 }, captured := false, calls := [] }

/-! ## Specification predicates -/

/-- The range contract of an enumerated integer setter `f` on the closed range
`lo..hi`, for the receiver `this` and the argument `val`: the error is non-nil
exactly when `val` is outside the range; outside the range the handle (engine
state, buffer and call log) is returned as it was; inside it the engine's
integer entry point is called once, with `opt` and the number `val`. -/
def EnumContract {σ : Type} (f : Tidy σ → Int → Result × Tidy σ) (opt : TidyOptionId)
    (lo hi : Int) (this : Tidy σ) (val : Int) : Prop :=
  ((f this val).1.2 ≠ none ↔ ¬ (lo ≤ val ∧ val ≤ hi)) ∧
  (¬ (lo ≤ val ∧ val ≤ hi) → (f this val).1.1 = false ∧ (f this val).2 = this) ∧
  (lo ≤ val ∧ val ≤ hi →
    (f this val).2.calls = this.calls ++ [Call.tidyOptSetInt opt val.toNat])

/-- The message contract of a validated setter `f` with domain `lo..hi`: outside
the domain the error is `errors.New(msg)`, inside it the error is `nil`. -/
def MessageContract {σ : Type} (f : Tidy σ → Int → Result × Tidy σ) (lo hi : Int)
    (msg : String) (this : Tidy σ) (val : Int) : Prop :=
  (¬ (lo ≤ val ∧ val ≤ hi) → (f this val).1.2 = some msg) ∧
  (lo ≤ val ∧ val ≤ hi → (f this val).1.2 = none)

/-! # Theorems -/

/-! ## Basic facts about the primitives -/

/-- A non-negative value below 2^64 is converted to itself. -/
theorem toCUlong_eq_toNat (val : Int) (h0 : 0 ≤ val) (h1 : val < 18446744073709551616) :
    toCUlong val = val.toNat := by
  unfold toCUlong
  omega

/-- A Go int other than 0, 1 and 2 is not converted to a tri-state code. -/
theorem toCUlong_not_triState (val : Int) (hval : GoInt val)
    (h : val ≠ 0 ∧ val ≠ 1 ∧ val ≠ 2) :
    ¬ (toCUlong val = Autobool_false ∨ toCUlong val = Autobool_true ∨
      toCUlong val = Autobool_auto) := by
  unfold toCUlong Autobool_false Autobool_true Autobool_auto
  unfold GoInt at hval
  omega

/-- The error of the integer primitive is nil. -/
theorem optSetInt_error {σ : Type} (E : Engine σ) (this : Tidy σ) (opt : TidyOptionId)
    (val : Nat) : (optSetInt E this opt val).1.2 = none := by
  simp only [optSetInt]
  split <;> rfl

/-- The integer primitive logs exactly one call of the integer entry point. -/
theorem optSetInt_calls {σ : Type} (E : Engine σ) (this : Tidy σ) (opt : TidyOptionId)
    (val : Nat) :
    (optSetInt E this opt val).2.calls = this.calls ++ [Call.tidyOptSetInt opt val] := by
  simp only [optSetInt]
  split <;> rfl

/-- The tri-state primitive refuses a converted Go int other than 0, 1 and 2 and returns the handle as it was. -/
theorem optSetAutoBool_reject {σ : Type} (E : Engine σ) (this : Tidy σ)
    (opt : TidyOptionId) (val : Int) (hval : GoInt val) (h : val ≠ 0 ∧ val ≠ 1 ∧ val ≠ 2) :
    optSetAutoBool E this opt (toCUlong val) =
      ((false, some "Argument val int is out of range (0,1,2)"), this) := by
  unfold optSetAutoBool
  rw [if_neg (toCUlong_not_triState val hval h)]

/-! ## Tri-state setters -/

/-- C1: for each of the four tri-state setters (MergeDivs, ShowBodyOnly, Indent,
OutputBom) and every Go int `val` other than 0, 1 and 2 (negative values and
values from 2^32 on included), the call returns `false` with the error
"Argument val int is out of range (0,1,2)", and the handle is returned as it was:
the call log is unchanged, so no engine entry point was invoked. -/
theorem triState_rejects_out_of_range {σ : Type} (E : Engine σ) (this : Tidy σ) (val : Int)
    (hval : GoInt val) (h : val ≠ 0 ∧ val ≠ 1 ∧ val ≠ 2) :
    MergeDivs E this val =
        ((false, some "Argument val int is out of range (0,1,2)"), this) ∧
      ShowBodyOnly E this val =
        ((false, some "Argument val int is out of range (0,1,2)"), this) ∧
      Indent E this val =
        ((false, some "Argument val int is out of range (0,1,2)"), this) ∧
      OutputBom E this val =
        ((false, some "Argument val int is out of range (0,1,2)"), this) ∧
      (MergeDivs E this val).2.calls = this.calls ∧
      (ShowBodyOnly E this val).2.calls = this.calls ∧
      (Indent E this val).2.calls = this.calls ∧
      (OutputBom E this val).2.calls = this.calls := by
  have hm : MergeDivs E this val =
      ((false, some "Argument val int is out of range (0,1,2)"), this) :=
    optSetAutoBool_reject E this _ val hval h
  have hs : ShowBodyOnly E this val =
      ((false, some "Argument val int is out of range (0,1,2)"), this) :=
    optSetAutoBool_reject E this _ val hval h
  have hi : Indent E this val =
      ((false, some "Argument val int is out of range (0,1,2)"), this) :=
    optSetAutoBool_reject E this _ val hval h
  have ho : OutputBom E this val =
      ((false, some "Argument val int is out of range (0,1,2)"), this) :=
    optSetAutoBool_reject E this _ val hval h
  refine ⟨hm, hs, hi, ho, ?_, ?_, ?_, ?_⟩
  · rw [hm]
  · rw [hs]
  · rw [hi]
  · rw [ho]

/-- Witness of C1 at `val = 4294967296` (2^32) on a fresh handle of the test double. -/
theorem triState_rejects_out_of_range_witness :
    GoInt 4294967296 ∧
      MergeDivs (storeEngine 1 0) fresh 4294967296 =
        ((false, some "Argument val int is out of range (0,1,2)"), fresh) ∧
      (OutputBom (storeEngine 1 0) fresh 4294967296).2.calls = [] :=
  have w := triState_rejects_out_of_range (storeEngine 1 0) fresh 4294967296
    (by decide) (by decide)
  ⟨by decide, w.1, w.2.2.2.2.2.2.2⟩


/-! ## Enumerated integer setters -/

/-- A setter that goes to the integer primitive inside `lo..hi` and refuses with `msg` outside it meets both contracts. -/
theorem optSetInt_enumContract {σ : Type} (E : Engine σ) (f : Tidy σ → Int → Result × Tidy σ)
    (opt : TidyOptionId) (lo hi : Int) (msg : String) (this : Tidy σ) (val : Int)
    (hlo : 0 ≤ lo) (hhi : hi < 18446744073709551616)
    (hin : lo ≤ val ∧ val ≤ hi → f this val = optSetInt E this opt (toCUlong val))
    (hout : ¬ (lo ≤ val ∧ val ≤ hi) → f this val = ((false, some msg), this)) :
    EnumContract f opt lo hi this val ∧ MessageContract f lo hi msg this val := by
  unfold EnumContract MessageContract
  by_cases h : lo ≤ val ∧ val ≤ hi
  · have e := hin h
    have hn : toCUlong val = val.toNat := toCUlong_eq_toNat val (by omega) (by omega)
    rw [e, hn]
    simp [h, optSetInt_error, optSetInt_calls]
  · have e := hout h
    rw [e]
    simp [h]

/-- Contracts of AccessibilityCheck on 0..3. -/
theorem AccessibilityCheck_contract {σ : Type} (E : Engine σ) (this : Tidy σ) (val : Int) :
    EnumContract (AccessibilityCheck E) .TidyAccessibilityCheckLevel 0 3 this val ∧
      MessageContract (AccessibilityCheck E) 0 3
        "Argument val int is out of range (0,1,2,3)" this val := by
  apply optSetInt_enumContract E <;>
    first
    | omega
    | (intro h
       unfold AccessibilityCheck TidyClassic Priority1Checks Priority2Checks Priority3Checks
       first
       | (rw [if_pos (by omega)])
       | (rw [if_neg (by omega)]))

/-- Contracts of RepeatedAttributes on 0..1. -/
theorem RepeatedAttributes_contract {σ : Type} (E : Engine σ) (this : Tidy σ) (val : Int) :
    EnumContract (RepeatedAttributes E) .TidyDuplicateAttrs 0 1 this val ∧
      MessageContract (RepeatedAttributes E) 0 1
        "Argument val int is out of range (0,1)" this val := by
  apply optSetInt_enumContract E <;>
    first
    | omega
    | (intro h
       unfold RepeatedAttributes KeepFirst KeepLast
       first
       | (rw [if_pos (by omega)])
       | (rw [if_neg (by omega)]))

/-- Contracts of Newline on 0..2. -/
theorem Newline_contract {σ : Type} (E : Engine σ) (this : Tidy σ) (val : Int) :
    EnumContract (Newline E) .TidyNewline 0 2 this val ∧
      MessageContract (Newline E) 0 2 "Argument val int is out of range (0,1,2)" this val := by
  apply optSetInt_enumContract E <;>
    first
    | omega
    | (intro h
       unfold Newline LF CRLF CR
       first
       | (rw [if_pos (by omega)])
       | (rw [if_neg (by omega)]))

/-- Contracts of CharEncoding on 0..13. -/
theorem CharEncoding_contract {σ : Type} (E : Engine σ) (this : Tidy σ) (val : Int) :
    EnumContract (CharEncoding E) .TidyCharEncoding 0 13 this val ∧
      MessageContract (CharEncoding E) 0 13 "Argument val int is out of range (0-13)"
        this val := by
  apply optSetInt_enumContract E <;>
    first
    | omega
    | (intro h
       unfold CharEncoding Raw Ascii Latin0 Latin1 Utf8 Iso2022 Mac Win1252 Ibm858 Utf16le
         Utf16be Utf16 Big5 Shiftjis
       first
       | (rw [if_pos (by omega)])
       | (rw [if_neg (by omega)]))

/-- Contracts of InputEncoding on 0..13. -/
theorem InputEncoding_contract {σ : Type} (E : Engine σ) (this : Tidy σ) (val : Int) :
    EnumContract (InputEncoding E) .TidyInCharEncoding 0 13 this val ∧
      MessageContract (InputEncoding E) 0 13 "Argument val int is out of range (0-13)"
        this val := by
  apply optSetInt_enumContract E <;>
    first
    | omega
    | (intro h
       unfold InputEncoding Raw Ascii Latin0 Latin1 Utf8 Iso2022 Mac Win1252 Ibm858 Utf16le
         Utf16be Utf16 Big5 Shiftjis
       first
       | (rw [if_pos (by omega)])
       | (rw [if_neg (by omega)]))

/-- Contracts of OutputEncoding on 0..13. -/
theorem OutputEncoding_contract {σ : Type} (E : Engine σ) (this : Tidy σ) (val : Int) :
    EnumContract (OutputEncoding E) .TidyOutCharEncoding 0 13 this val ∧
      MessageContract (OutputEncoding E) 0 13 "Argument val int is out of range (0-13)"
        this val := by
  apply optSetInt_enumContract E <;>
    first
    | omega
    | (intro h
       unfold OutputEncoding Raw Ascii Latin0 Latin1 Utf8 Iso2022 Mac Win1252 Ibm858 Utf16le
         Utf16be Utf16 Big5 Shiftjis
       first
       | (rw [if_pos (by omega)])
       | (rw [if_neg (by omega)]))

/-- Message contract of a tri-state setter on 0..2, for a Go int. -/
theorem optSetAutoBool_messageContract {σ : Type} (E : Engine σ) (opt : TidyOptionId)
    (this : Tidy σ) (val : Int) (hval : GoInt val) :
    MessageContract (fun t v => optSetAutoBool E t opt (toCUlong v)) 0 2
      "Argument val int is out of range (0,1,2)" this val := by
  unfold MessageContract
  constructor
  · intro h
    show (optSetAutoBool E this opt (toCUlong val)).1.2 = _
    rw [optSetAutoBool_reject E this opt val hval (by omega)]
  · intro h
    show (optSetAutoBool E this opt (toCUlong val)).1.2 = _
    have hn : toCUlong val = val.toNat := toCUlong_eq_toNat val (by omega) (by omega)
    unfold optSetAutoBool Autobool_false Autobool_true Autobool_auto
    rw [if_pos (by omega)]
    exact optSetInt_error E this opt _

/-- C2: each enumerated integer setter accepts exactly its documented set. For
every int `val`, the setter returns a non-nil error if and only if `val` is
outside the set ({0,1,2,3} for AccessibilityCheck, {0,1} for RepeatedAttributes,
{0,1,2} for Newline, {0,...,13} for CharEncoding, InputEncoding and
OutputEncoding); a refused value leaves the handle and its call log as they
were (the engine is not invoked), and for every member the engine's integer
entry point is invoked once with the option's id and that value. In particular
-1 and max+1 are refused. -/
theorem enum_setters_accept_exactly {σ : Type} (E : Engine σ) (this : Tidy σ) (val : Int) :
    EnumContract (AccessibilityCheck E) .TidyAccessibilityCheckLevel 0 3 this val ∧
      EnumContract (RepeatedAttributes E) .TidyDuplicateAttrs 0 1 this val ∧
      EnumContract (Newline E) .TidyNewline 0 2 this val ∧
      EnumContract (CharEncoding E) .TidyCharEncoding 0 13 this val ∧
      EnumContract (InputEncoding E) .TidyInCharEncoding 0 13 this val ∧
      EnumContract (OutputEncoding E) .TidyOutCharEncoding 0 13 this val :=
  ⟨(AccessibilityCheck_contract E this val).1, (RepeatedAttributes_contract E this val).1,
    (Newline_contract E this val).1, (CharEncoding_contract E this val).1,
    (InputEncoding_contract E this val).1, (OutputEncoding_contract E this val).1⟩

/-- Witness of C2 at the neighbours of the ranges and at a member: -1 and 4 are
refused by AccessibilityCheck, 2 by RepeatedAttributes, 3 by Newline, 14 by
CharEncoding, and CharEncoding(13) calls `tidyOptSetInt(TidyCharEncoding, 13)`. -/
theorem enum_setters_accept_exactly_witness :
    (AccessibilityCheck (storeEngine 0 0) fresh (-1)).1.2 ≠ none ∧
      (AccessibilityCheck (storeEngine 0 0) fresh 4).1.2 ≠ none ∧
      (RepeatedAttributes (storeEngine 0 0) fresh 2).1.2 ≠ none ∧
      (Newline (storeEngine 0 0) fresh 3).1.2 ≠ none ∧
      (CharEncoding (storeEngine 0 0) fresh 14).1.2 ≠ none ∧
      (CharEncoding (storeEngine 0 0) fresh 13).2.calls =
        [Call.tidyOptSetInt .TidyCharEncoding 13] :=
  ⟨(enum_setters_accept_exactly (storeEngine 0 0) fresh (-1)).1.1.2 (by decide),
    (enum_setters_accept_exactly (storeEngine 0 0) fresh 4).1.1.2 (by decide),
    (enum_setters_accept_exactly (storeEngine 0 0) fresh 2).2.1.1.2 (by decide),
    (enum_setters_accept_exactly (storeEngine 0 0) fresh 3).2.2.1.1.2 (by decide),
    (enum_setters_accept_exactly (storeEngine 0 0) fresh 14).2.2.2.1.1.2 (by decide),
    (enum_setters_accept_exactly (storeEngine 0 0) fresh 13).2.2.2.1.2.2 (by decide)⟩

/-- C3: for every validated setter and every Go int `val` outside its domain, the
error message names that setter's own domain: "(0,1,2)" for the four tri-state
setters and Newline, "(0,1)" for RepeatedAttributes, "(0,1,2,3)" for
AccessibilityCheck and "(0-13)" for the three encoding setters; and the domain
named is exactly the set of accepted values, since inside it the error is nil. -/
theorem range_error_names_own_domain {σ : Type} (E : Engine σ) (this : Tidy σ) (val : Int)
    (hval : GoInt val) :
    MessageContract (MergeDivs E) 0 2 "Argument val int is out of range (0,1,2)" this val ∧
      MessageContract (ShowBodyOnly E) 0 2
        "Argument val int is out of range (0,1,2)" this val ∧
      MessageContract (Indent E) 0 2 "Argument val int is out of range (0,1,2)" this val ∧
      MessageContract (OutputBom E) 0 2 "Argument val int is out of range (0,1,2)" this val ∧
      MessageContract (Newline E) 0 2 "Argument val int is out of range (0,1,2)" this val ∧
      MessageContract (RepeatedAttributes E) 0 1
        "Argument val int is out of range (0,1)" this val ∧
      MessageContract (AccessibilityCheck E) 0 3
        "Argument val int is out of range (0,1,2,3)" this val ∧
      MessageContract (CharEncoding E) 0 13
        "Argument val int is out of range (0-13)" this val ∧
      MessageContract (InputEncoding E) 0 13
        "Argument val int is out of range (0-13)" this val ∧
      MessageContract (OutputEncoding E) 0 13
        "Argument val int is out of range (0-13)" this val :=
  ⟨optSetAutoBool_messageContract E _ this val hval,
    optSetAutoBool_messageContract E _ this val hval,
    optSetAutoBool_messageContract E _ this val hval,
    optSetAutoBool_messageContract E _ this val hval,
    (Newline_contract E this val).2, (RepeatedAttributes_contract E this val).2,
    (AccessibilityCheck_contract E this val).2, (CharEncoding_contract E this val).2,
    (InputEncoding_contract E this val).2, (OutputEncoding_contract E this val).2⟩

/-- Witness of C3 at `val = 4`: AccessibilityCheck(4) fails with the message naming
(0,1,2,3), the tri-state setter MergeDivs(4) with the one naming (0,1,2). -/
theorem range_error_names_own_domain_witness :
    GoInt 4 ∧
      (AccessibilityCheck (storeEngine 1 0) fresh 4).1.2 =
        some "Argument val int is out of range (0,1,2,3)" ∧
      (MergeDivs (storeEngine 1 0) fresh 4).1.2 =
        some "Argument val int is out of range (0,1,2)" :=
  have w := range_error_names_own_domain (storeEngine 1 0) fresh 4 (by decide)
  ⟨by decide, w.2.2.2.2.2.2.1.1 (by decide), w.1.1 (by decide)⟩


/-- The store holds for an option the value last set. -/
theorem Store.get_set (s : Store) (opt : TidyOptionId) (v : Val) :
    (s.set opt v).get opt = some v := by
  simp [Store.get, Store.set]

/-- On a tri-state code the tri-state primitive is the integer primitive. -/
theorem optSetAutoBool_accept {σ : Type} (E : Engine σ) (this : Tidy σ) (opt : TidyOptionId)
    (val : Nat) (h : val = 0 ∨ val = 1 ∨ val = 2) :
    optSetAutoBool E this opt val = optSetInt E this opt val := by
  unfold optSetAutoBool Autobool_false Autobool_true Autobool_auto
  rw [if_pos h]

/-- After the integer primitive on the storing test double, the store holds the value. -/
theorem storeEngine_optSetInt_holds (reply status : Int) (this : Tidy Store)
    (opt : TidyOptionId) (val : Nat) :
    (optSetInt (storeEngine reply status) this opt val).2.tdoc.get opt = some (Val.num val) := by
  simp only [optSetInt, storeEngine]
  split <;> exact Store.get_set _ _ _

/-- C4: for every tri-state option and every `val` among `False = 0`, `True = 1`
and `Auto = 2`, the tri-state setter is the generic integer setter:
`optSetAutoBool(opt, val) = optSetInt(opt, val)`, for the dispatch primitive on
any id and for the four public setters on their own id; the engine's integer
entry point is invoked exactly once, with that id and the code 0, 1 or 2; and
an engine that stores what it is handed (the test double) then holds that code
for the option. -/
theorem triState_delegates_to_optSetInt {σ : Type} (E : Engine σ) (this : Tidy σ) (val : Int)
    (h : val = Const.False ∨ val = Const.True ∨ val = Const.Auto) :
    (Const.False.toNat = 0 ∧ Const.True.toNat = 1 ∧ Const.Auto.toNat = 2) ∧
      (∀ opt : TidyOptionId,
        optSetAutoBool E this opt val.toNat = optSetInt E this opt val.toNat ∧
        (optSetAutoBool E this opt val.toNat).2.calls =
          this.calls ++ [Call.tidyOptSetInt opt val.toNat]) ∧
      (MergeDivs E this val = optSetInt E this .TidyMergeDivs val.toNat ∧
        ShowBodyOnly E this val = optSetInt E this .TidyBodyOnly val.toNat ∧
        Indent E this val = optSetInt E this .TidyIndentContent val.toNat ∧
        OutputBom E this val = optSetInt E this .TidyOutputBOM val.toNat) ∧
      (∀ (reply status : Int) (t : Tidy Store) (opt : TidyOptionId),
        (optSetAutoBool (storeEngine reply status) t opt val.toNat).2.tdoc.get opt =
          some (Val.num val.toNat)) := by
  have hv : val = 0 ∨ val = 1 ∨ val = 2 := h
  have hn : val.toNat = 0 ∨ val.toNat = 1 ∨ val.toNat = 2 := by omega
  have hc : toCUlong val = val.toNat := toCUlong_eq_toNat val (by omega) (by omega)
  refine ⟨⟨rfl, rfl, rfl⟩, ?_, ⟨?_, ?_, ?_, ?_⟩, ?_⟩
  · intro opt
    rw [optSetAutoBool_accept E this opt _ hn]
    exact ⟨rfl, optSetInt_calls E this opt _⟩
  · unfold MergeDivs
    rw [hc, optSetAutoBool_accept E this _ _ hn]
  · unfold ShowBodyOnly
    rw [hc, optSetAutoBool_accept E this _ _ hn]
  · unfold Indent
    rw [hc, optSetAutoBool_accept E this _ _ hn]
  · unfold OutputBom
    rw [hc, optSetAutoBool_accept E this _ _ hn]
  · intro reply status t opt
    rw [optSetAutoBool_accept _ t opt _ hn]
    exact storeEngine_optSetInt_holds reply status t opt _

/-- Witness of C4 at `val = Auto`: MergeDivs(Auto) on a fresh handle of the test
double makes the single call `tidyOptSetInt(TidyMergeDivs, 2)`. -/
theorem triState_delegates_to_optSetInt_witness :
    (MergeDivs (storeEngine 0 0) fresh Const.Auto =
        optSetInt (storeEngine 0 0) fresh .TidyMergeDivs 2) ∧
      (optSetAutoBool (storeEngine 0 0) fresh .TidyMergeDivs 2).2.calls =
        [Call.tidyOptSetInt .TidyMergeDivs 2] :=
  have w := triState_delegates_to_optSetInt (storeEngine 0 0) fresh Const.Auto
    (Or.inr (Or.inr rfl))
  ⟨w.2.2.1.1, (w.2.1 .TidyMergeDivs).2⟩


/-! ## The boolean path -/

/-- The boolean primitive returns `(true, nil)` or `false` with a non-nil error. -/
theorem optSetBool_cases {σ : Type} (E : Engine σ) (this : Tidy σ) (opt : TidyOptionId)
    (val : Nat) (r : Result × Tidy σ) (h : optSetBool E this opt val = some r) :
    r.1 = (true, none) ∨ (r.1.1 = false ∧ r.1.2 ≠ none) := by
  simp only [optSetBool] at h
  split at h
  · split at h
    · split at h
      · cases h
        exact Or.inr ⟨rfl, by simp⟩
      · cases h
    · cases h
      exact Or.inl rfl
  · cases h
    exact Or.inl rfl

/-- C5 (the code departs from the claim): on an engine that refuses the value and
answers the boolean set with code 1, the one answer on which `optSetBool`
captures diagnostics, AddXmlDecl(true) reports success `(true, nil)` when the
capture returns status 0, although the buffer holds the readable text
"bad value"; an error is returned only when the capture status is non-zero;
and when the refusing engine answers with code 0, success is reported without
the capture being attempted. -/
theorem optSetBool_rejected_reported_as_success :
    (AddXmlDecl (rejectEngine 1 0) (holding .TidyXmlDecl 0) true).map Prod.fst =
        some (true, none) ∧
      (AddXmlDecl (rejectEngine 1 0) (holding .TidyXmlDecl 0) true).map (fun r => r.2.calls) =
        some [Call.tidyOptSetBool .TidyXmlDecl 1, Call.tidySetErrorBuffer] ∧
      (AddXmlDecl (rejectEngine 1 0) (holding .TidyXmlDecl 0) true).bind
        (fun r => r.2.tdoc.get .TidyXmlDecl) = some (Val.num 0) ∧
      (AddXmlDecl (rejectEngine 1 (-22)) (holding .TidyXmlDecl 0) true).map Prod.fst =
        some (false, some "bad value") ∧
      (AddXmlDecl (rejectEngine 0 0) (holding .TidyXmlDecl 0) true).map Prod.fst =
        some (true, none) ∧
      (AddXmlDecl (rejectEngine 0 0) (holding .TidyXmlDecl 0) true).map (fun r => r.2.calls) =
        some [Call.tidyOptSetBool .TidyXmlDecl 1] := by
  decide

/-- C6, counterexample: the test double holds 0 for TidyXmlDecl, so `true`
differs from the current value, and it accepts the new value; yet the second of
two consecutive calls AddXmlDecl(true) returns `(true, nil)`, not the no-op
result `(false, nil)`, whether the engine answers its set entry point with 1 or
with 0. -/
theorem boolean_second_call_not_noop :
    (holding .TidyXmlDecl 0).tdoc.get .TidyXmlDecl = some (Val.num 0) ∧
      cBool true ≠ 0 ∧
      (AddXmlDecl (storeEngine 1 0) (holding .TidyXmlDecl 0) true).map Prod.fst =
        some (true, none) ∧
      ((AddXmlDecl (storeEngine 1 0) (holding .TidyXmlDecl 0) true).bind
        (fun r => AddXmlDecl (storeEngine 1 0) r.2 true)).map Prod.fst = some (true, none) ∧
      (AddXmlDecl (storeEngine 0 0) (holding .TidyXmlDecl 0) true).map Prod.fst =
        some (true, none) ∧
      ((AddXmlDecl (storeEngine 0 0) (holding .TidyXmlDecl 0) true).bind
        (fun r => AddXmlDecl (storeEngine 0 0) r.2 true)).map Prod.fst = some (true, none) := by
  decide

/-- C6, amended: for every engine, boolean option and value, when two consecutive
calls of the boolean setter with the same value both return a nil error, both
return the flag `true`: the flag of a successful call never tells a no-op from
a change, and `(false, nil)` is never returned. -/
theorem boolean_consecutive_calls_both_true {σ : Type} (E : Engine σ) (this : Tidy σ)
    (opt : TidyOptionId) (v : Bool)
    (hnil1 : (optSetBool E this opt (cBool v)).map (fun r => r.1.2) = some none)
    (hnil2 : ((optSetBool E this opt (cBool v)).bind
      (fun r => optSetBool E r.2 opt (cBool v))).map (fun r => r.1.2) = some none) :
    (optSetBool E this opt (cBool v)).map Prod.fst = some (true, none) ∧
      ((optSetBool E this opt (cBool v)).bind
        (fun r => optSetBool E r.2 opt (cBool v))).map Prod.fst = some (true, none) := by
  cases h1 : optSetBool E this opt (cBool v) with
  | none => rw [h1] at hnil1; cases hnil1
  | some r1 =>
    rw [h1] at hnil1 hnil2
    simp only [Option.map_some', Option.some.injEq, Option.some_bind] at hnil1 hnil2 ⊢
    have e1 : r1.1 = (true, none) := by
      rcases optSetBool_cases E this opt _ r1 h1 with h | h
      · exact h
      · exact absurd hnil1 h.2
    refine ⟨e1, ?_⟩
    cases h2 : optSetBool E r1.2 opt (cBool v) with
    | none => rw [h2] at hnil2; cases hnil2
    | some r2 =>
      rw [h2] at hnil2
      simp only [Option.map_some', Option.some.injEq] at hnil2 ⊢
      rcases optSetBool_cases E r1.2 opt _ r2 h2 with h | h
      · exact h
      · exact absurd hnil2 h.2

/-- Witness of the amended C6: AddXmlDecl(true) twice on the test double, whose
set entry point answers 0. -/
theorem boolean_consecutive_calls_both_true_witness :
    (optSetBool (storeEngine 0 0) (holding .TidyXmlDecl 0) .TidyXmlDecl (cBool true)).map
        Prod.fst = some (true, none) ∧
      ((optSetBool (storeEngine 0 0) (holding .TidyXmlDecl 0) .TidyXmlDecl (cBool true)).bind
        (fun r => optSetBool (storeEngine 0 0) r.2 .TidyXmlDecl (cBool true))).map Prod.fst =
        some (true, none) :=
  boolean_consecutive_calls_both_true (storeEngine 0 0) (holding .TidyXmlDecl 0)
    .TidyXmlDecl true (by decide) (by decide)


/-! ## The integer and string paths -/

/-- Result of the integer primitive in terms of the engine's return code. -/
theorem optSetInt_result {σ : Type} (E : Engine σ) (this : Tidy σ) (opt : TidyOptionId)
    (val : Nat) :
    (optSetInt E this opt val).1 =
      (decide ((E.tidyOptSetInt this.tdoc opt val).2 ≠ 1), none) := by
  simp only [optSetInt]
  split <;> simp [*]

/-- Engine state after the integer primitive. -/
theorem optSetInt_tdoc {σ : Type} (E : Engine σ) (this : Tidy σ) (opt : TidyOptionId)
    (val : Nat) :
    (optSetInt E this opt val).2.tdoc = (E.tidyOptSetInt this.tdoc opt val).1 := by
  simp only [optSetInt]
  split <;> rfl

/-- Result of the string primitive in terms of the engine's return code. -/
theorem optSetString_result {σ : Type} (E : Engine σ) (this : Tidy σ) (opt : TidyOptionId)
    (val : List Char) :
    (optSetString E this opt val).1 =
      (decide ((E.tidyOptSetValue this.tdoc opt val).2 ≠ 1), none) := by
  simp only [optSetString]
  split <;> simp [*]

/-- The string primitive logs exactly one call of the string entry point. -/
theorem optSetString_calls {σ : Type} (E : Engine σ) (this : Tidy σ) (opt : TidyOptionId)
    (val : List Char) :
    (optSetString E this opt val).2.calls = this.calls ++ [Call.tidyOptSetValue opt val] := by
  simp only [optSetString]
  split <;> rfl

/-- The value 2 passes the validation of AccessibilityCheck. -/
theorem AccessibilityCheck_two {σ : Type} (E : Engine σ) (this : Tidy σ) :
    AccessibilityCheck E this 2 = optSetInt E this .TidyAccessibilityCheckLevel 2 := by
  unfold AccessibilityCheck TidyClassic Priority1Checks Priority2Checks Priority3Checks
  rw [if_pos (by omega)]
  rfl

/-- C7, counterexample: the test double holds level 0, not 2, and accepts the
value (it holds 2 after the call). When it answers its integer entry point with
1, the first AccessibilityCheck(2) returns `(false, nil)` although the stored
level was altered; when it answers with 0, the second, identical call returns
`(true, nil)` although nothing was altered. -/
theorem accessibilityCheck_flag_not_changed_flag :
    (holding .TidyAccessibilityCheckLevel 0).tdoc.get .TidyAccessibilityCheckLevel =
        some (Val.num 0) ∧
      (AccessibilityCheck (storeEngine 1 0) (holding .TidyAccessibilityCheckLevel 0)
        2).2.tdoc.get .TidyAccessibilityCheckLevel = some (Val.num 2) ∧
      (AccessibilityCheck (storeEngine 1 0) (holding .TidyAccessibilityCheckLevel 0) 2).1 =
        (false, none) ∧
      (AccessibilityCheck (storeEngine 0 0) (holding .TidyAccessibilityCheckLevel 0)
        2).2.tdoc.get .TidyAccessibilityCheckLevel = some (Val.num 2) ∧
      (AccessibilityCheck (storeEngine 0 0) (holding .TidyAccessibilityCheckLevel 0) 2).1 =
        (true, none) ∧
      (AccessibilityCheck (storeEngine 0 0)
        (AccessibilityCheck (storeEngine 0 0) (holding .TidyAccessibilityCheckLevel 0) 2).2
        2).1 = (true, none) := by
  decide

/-- C7, amended: AccessibilityCheck(2) always returns a nil error and hands the
engine's integer entry point the id TidyAccessibilityCheckLevel and the value 2;
its flag is `false` exactly when that entry point returned code 1 and `true`
otherwise, on the first call and on an immediately following identical call,
whatever level the handle held. More generally the flag of the integer setter
is a function of the engine's raw return code alone. -/
theorem accessibilityCheck_flag_is_return_code {σ : Type} (E : Engine σ) (this : Tidy σ) :
    (AccessibilityCheck E this 2).1 =
        (decide ((E.tidyOptSetInt this.tdoc .TidyAccessibilityCheckLevel 2).2 ≠ 1), none) ∧
      (AccessibilityCheck E (AccessibilityCheck E this 2).2 2).1 =
        (decide ((E.tidyOptSetInt (E.tidyOptSetInt this.tdoc .TidyAccessibilityCheckLevel 2).1
          .TidyAccessibilityCheckLevel 2).2 ≠ 1), none) ∧
      (AccessibilityCheck E this 2).2.calls =
        this.calls ++ [Call.tidyOptSetInt .TidyAccessibilityCheckLevel 2] ∧
      (∀ (opt : TidyOptionId) (val : Nat),
        (optSetInt E this opt val).1 =
          (decide ((E.tidyOptSetInt this.tdoc opt val).2 ≠ 1), none)) := by
  refine ⟨?_, ?_, ?_, fun opt val => optSetInt_result E this opt val⟩
  · rw [AccessibilityCheck_two, optSetInt_result]
  · rw [AccessibilityCheck_two, AccessibilityCheck_two, optSetInt_result, optSetInt_tdoc]
  · rw [AccessibilityCheck_two, optSetInt_calls]

/-- C8, counterexample: on an engine that refuses every value, the generic integer
setter and the generic string setter return a nil error, whether the engine
signals the refusal with code 1 (the result is `(false, nil)`) or with code 0
(the result is `(true, nil)`). -/
theorem generic_setters_rejection_has_nil_error :
    (optSetInt (rejectEngine 1 0) (holding .TidyWrapLen 68) .TidyWrapLen 80).1 =
        (false, none) ∧
      (optSetInt (rejectEngine 0 0) (holding .TidyWrapLen 68) .TidyWrapLen 80).1 =
        (true, none) ∧
      (optSetInt (rejectEngine 1 0) (holding .TidyWrapLen 68) .TidyWrapLen 80).2.tdoc.get
        .TidyWrapLen = some (Val.num 68) ∧
      (optSetString (rejectEngine 1 0) fresh .TidyDoctype (CString "strict")).1 =
        (false, none) ∧
      (optSetString (rejectEngine 0 0) fresh .TidyDoctype (CString "strict")).1 =
        (true, none) := by
  decide

/-- C8, amended: for every engine, id and value, the generic integer setter and
the generic string setter return a nil error, whatever code the engine's set
entry point returns; the return code is surfaced through the flag alone, which
is `false` exactly when the code is 1 (so a set answered with code 1 yields
`(false, nil)`). -/
theorem generic_setters_error_always_nil {σ : Type} (E : Engine σ) (this : Tidy σ)
    (opt : TidyOptionId) (val : Nat) (sval : List Char) :
    (optSetInt E this opt val).1.2 = none ∧
      (optSetString E this opt sval).1.2 = none ∧
      ((optSetInt E this opt val).1.1 = false ↔ (E.tidyOptSetInt this.tdoc opt val).2 = 1) ∧
      ((optSetString E this opt sval).1.1 = false ↔
        (E.tidyOptSetValue this.tdoc opt sval).2 = 1) := by
  rw [optSetInt_result, optSetString_result]
  simp


/-! ## Symbolic ids -/

/-- C9 (the code departs from the claim): the mapping from public setters to
symbolic ids is not injective. The two distinct setters AltText and AddXmlSpace
pass the same id, TidyXmlSpace, to the engine: AltText("x") calls
`tidyOptSetValue(TidyXmlSpace, "x")` and AddXmlSpace(true) calls
`tidyOptSetBool(TidyXmlSpace, 1)`. -/
theorem setter_ids_not_injective :
    Setter.AltText ≠ Setter.AddXmlSpace ∧
      Setter.optionId .AltText = Setter.optionId .AddXmlSpace ∧
      ¬ Function.Injective Setter.optionId ∧
      (AltText (storeEngine 0 0) fresh "x").2.calls =
        [Call.tidyOptSetValue .TidyXmlSpace (CString "x")] ∧
      (AddXmlSpace (storeEngine 0 0) fresh true).map (fun r => r.2.calls) =
        some [Call.tidyOptSetBool .TidyXmlSpace 1] := by
  refine ⟨by decide, rfl, ?_, by decide, by decide⟩
  intro h
  exact absurd (h (show Setter.optionId .AltText = Setter.optionId .AddXmlSpace from rfl))
    (by decide)

/-- C10 (the code departs from the claim): for every string `val`, AltText(val)
invokes the engine's string entry point once, with the marshalled `val` and the
id TidyXmlSpace, the id AddXmlSpace sets, which is not TidyAltText. On the test
double, AltText("x") overwrites the value held for the xml:space option and
leaves the alt-text option unset. -/
theorem AltText_targets_xml_space {σ : Type} (E : Engine σ) (this : Tidy σ) (val : String) :
    (AltText E this val).2.calls =
        this.calls ++ [Call.tidyOptSetValue .TidyXmlSpace (CString val)] ∧
      TidyOptionId.TidyXmlSpace ≠ TidyOptionId.TidyAltText ∧
      (AltText (storeEngine 0 0) (holding .TidyXmlSpace 1) "x").2.tdoc.get .TidyXmlSpace =
        some (Val.text (CString "x")) ∧
      (AltText (storeEngine 0 0) (holding .TidyXmlSpace 1) "x").2.tdoc.get .TidyAltText =
        none := by
  refine ⟨?_, by decide, by decide, by decide⟩
  unfold AltText
  exact optSetString_calls E this _ _

/-! ## Further facts about the primitives -/

/-- The boolean primitive when the engine answers a code other than 1: success,
one logged call, buffer untouched. -/
theorem optSetBool_of_code_ne_one {σ : Type} (E : Engine σ) (this : Tidy σ)
    (opt : TidyOptionId) (val : Nat) (h : (E.tidyOptSetBool this.tdoc opt val).2 ≠ 1) :
    optSetBool E this opt val =
      some ((true, none),
        { tdoc := (E.tidyOptSetBool this.tdoc opt val).1, errbuf := this.errbuf,
          calls := this.calls ++ [Call.tidyOptSetBool opt val] }) := by
  simp only [optSetBool]
  rw [if_neg h]

/-- The boolean primitive when the engine answers 1 and the capture answers 0:
success, the capture logged after the set. -/
theorem optSetBool_of_status_zero {σ : Type} (E : Engine σ) (this : Tidy σ)
    (opt : TidyOptionId) (val : Nat) (h : (E.tidyOptSetBool this.tdoc opt val).2 = 1)
    (hs : (E.tidySetErrorBuffer (E.tidyOptSetBool this.tdoc opt val).1 this.errbuf).2 = 0) :
    optSetBool E this opt val =
      some ((true, none),
        { tdoc := (E.tidySetErrorBuffer (E.tidyOptSetBool this.tdoc opt val).1
            this.errbuf).1.1,
          errbuf := (E.tidySetErrorBuffer (E.tidyOptSetBool this.tdoc opt val).1
            this.errbuf).1.2,
          calls := this.calls ++ [Call.tidyOptSetBool opt val] ++
            [Call.tidySetErrorBuffer] }) := by
  simp only [optSetBool]
  rw [if_pos h, if_neg (by simpa using hs)]

/-- The boolean primitive when the engine answers 1 and the capture answers a
non-zero status: the error made by `C.GoStringN` from the buffer, or no result
when `C.GoStringN` panics. -/
theorem optSetBool_of_status_ne_zero {σ : Type} (E : Engine σ) (this : Tidy σ)
    (opt : TidyOptionId) (val : Nat) (h : (E.tidyOptSetBool this.tdoc opt val).2 = 1)
    (hs : (E.tidySetErrorBuffer (E.tidyOptSetBool this.tdoc opt val).1 this.errbuf).2 ≠ 0) :
    optSetBool E this opt val =
      (GoStringN
        (E.tidySetErrorBuffer (E.tidyOptSetBool this.tdoc opt val).1 this.errbuf).1.2.bp
        (toCInt (E.tidySetErrorBuffer (E.tidyOptSetBool this.tdoc opt val).1
          this.errbuf).1.2.size)).map
        (fun msg => ((false, some msg),
          { tdoc := (E.tidySetErrorBuffer (E.tidyOptSetBool this.tdoc opt val).1
              this.errbuf).1.1,
            errbuf := (E.tidySetErrorBuffer (E.tidyOptSetBool this.tdoc opt val).1
              this.errbuf).1.2,
            calls := this.calls ++ [Call.tidyOptSetBool opt val] ++
              [Call.tidySetErrorBuffer] })) := by
  simp only [optSetBool]
  rw [if_pos h, if_pos hs]
  split <;> simp [*]

/-- A size below 2^31 is converted to itself by `C.int`. -/
theorem toCInt_of_lt (n : Nat) (h : n < 2147483648) : toCInt n = (n : Int) := by
  unfold toCInt
  have e : n % 4294967296 = n := Nat.mod_eq_of_lt (by omega)
  rw [e, if_pos h]

/-- With a non-negative length `C.GoStringN` returns the first bytes at `p`. -/
theorem GoStringN_of_nonneg (p : List Char) (n : Nat) :
    GoStringN p (n : Int) = some (String.mk (p.take n)) := by
  unfold GoStringN
  rw [if_neg (by omega)]
  simp

/-! ## Unconstrained integer setters -/

/-- C11, counterexample: ShowErrors(-1) and Wrap(-1) are not refused; the engine's
integer entry point is handed 18446744073709551615, which is not -1. -/
theorem free_int_negative_is_wrapped :
    (ShowErrors (storeEngine 0 0) fresh (-1)).1 = (true, none) ∧
      (ShowErrors (storeEngine 0 0) fresh (-1)).2.calls =
        [Call.tidyOptSetInt .TidyShowErrors 18446744073709551615] ∧
      (Wrap (storeEngine 0 0) fresh (-1)).1 = (true, none) ∧
      (Wrap (storeEngine 0 0) fresh (-1)).2.calls =
        [Call.tidyOptSetInt .TidyWrapLen 18446744073709551615] ∧
      ((18446744073709551615 : Nat) : Int) ≠ -1 := by
  decide

/-- C11, amended: for each unconstrained integer setter (ShowErrors, IndentSpaces,
TabSize, Wrap) and every Go int `val`, the setter refuses nothing (the error is
nil) and calls the engine's integer entry point once with its id and the
converted value `(C.ulong)(val)`, which is numerically `val` when `val` is not
negative and `val + 2^64` when it is. -/
theorem free_int_hands_converted_value {σ : Type} (E : Engine σ) (this : Tidy σ) (val : Int)
    (hval : GoInt val) :
    ((0 ≤ val → ((toCUlong val : Nat) : Int) = val) ∧
        (val < 0 → ((toCUlong val : Nat) : Int) = val + 18446744073709551616)) ∧
      ((ShowErrors E this val).2.calls =
          this.calls ++ [Call.tidyOptSetInt .TidyShowErrors (toCUlong val)] ∧
        (IndentSpaces E this val).2.calls =
          this.calls ++ [Call.tidyOptSetInt .TidyIndentSpaces (toCUlong val)] ∧
        (TabSize E this val).2.calls =
          this.calls ++ [Call.tidyOptSetInt .TidyTabSize (toCUlong val)] ∧
        (Wrap E this val).2.calls =
          this.calls ++ [Call.tidyOptSetInt .TidyWrapLen (toCUlong val)]) ∧
      ((ShowErrors E this val).1.2 = none ∧ (IndentSpaces E this val).1.2 = none ∧
        (TabSize E this val).1.2 = none ∧ (Wrap E this val).1.2 = none) := by
  refine ⟨⟨?_, ?_⟩, ⟨?_, ?_, ?_, ?_⟩, ⟨?_, ?_, ?_, ?_⟩⟩
  · intro h
    unfold toCUlong
    unfold GoInt at hval
    omega
  · intro h
    unfold toCUlong
    unfold GoInt at hval
    omega
  · exact optSetInt_calls E this _ _
  · exact optSetInt_calls E this _ _
  · exact optSetInt_calls E this _ _
  · exact optSetInt_calls E this _ _
  · exact optSetInt_error E this _ _
  · exact optSetInt_error E this _ _
  · exact optSetInt_error E this _ _
  · exact optSetInt_error E this _ _

/-- Witness of the amended C11 at `val = 80`: Wrap(80) hands the engine 80. -/
theorem free_int_hands_converted_value_witness :
    GoInt 80 ∧ ((toCUlong 80 : Nat) : Int) = 80 ∧
      (Wrap (storeEngine 0 0) fresh 80).2.calls =
        fresh.calls ++ [Call.tidyOptSetInt .TidyWrapLen (toCUlong 80)] :=
  have w := free_int_hands_converted_value (storeEngine 0 0) fresh 80 (by decide)
  ⟨by decide, w.1.1 (by decide), w.2.1.2.2.2⟩

/-! ## Plain boolean setters -/

/-- The boolean primitive returns unless the engine answered 1, the capture
answered a non-zero status and the reported size wraps to a negative `C.int`. -/
theorem optSetBool_returns {σ : Type} (E : Engine σ) (this : Tidy σ) (opt : TidyOptionId)
    (val : Nat)
    (h : (E.tidyOptSetBool this.tdoc opt val).2 ≠ 1 ∨
      (E.tidySetErrorBuffer (E.tidyOptSetBool this.tdoc opt val).1 this.errbuf).2 = 0 ∨
      (E.tidySetErrorBuffer (E.tidyOptSetBool this.tdoc opt val).1 this.errbuf).1.2.size
        < 2147483648) :
    ∃ r, optSetBool E this opt val = some r := by
  by_cases h1 : (E.tidyOptSetBool this.tdoc opt val).2 = 1
  · by_cases hs :
      (E.tidySetErrorBuffer (E.tidyOptSetBool this.tdoc opt val).1 this.errbuf).2 = 0
    · exact ⟨_, optSetBool_of_status_zero E this opt val h1 hs⟩
    · rcases h with h | h | h
      · exact absurd h1 h
      · exact absurd h hs
      · rw [optSetBool_of_status_ne_zero E this opt val h1 hs, toCInt_of_lt _ h,
          GoStringN_of_nonneg]
        exact ⟨_, rfl⟩
  · exact ⟨_, optSetBool_of_code_ne_one E this opt val h1⟩

/-- Every result of the boolean primitive logs one call of the boolean entry
point, followed by the capture or by nothing. -/
theorem optSetBool_calls {σ : Type} (E : Engine σ) (this : Tidy σ) (opt : TidyOptionId)
    (val : Nat) (r : Result × Tidy σ) (h : optSetBool E this opt val = some r) :
    r.2.calls = this.calls ++ [Call.tidyOptSetBool opt val] ∨
      r.2.calls = this.calls ++ [Call.tidyOptSetBool opt val] ++
        [Call.tidySetErrorBuffer] := by
  by_cases h1 : (E.tidyOptSetBool this.tdoc opt val).2 = 1
  · by_cases hs :
      (E.tidySetErrorBuffer (E.tidyOptSetBool this.tdoc opt val).1 this.errbuf).2 = 0
    · rw [optSetBool_of_status_zero E this opt val h1 hs] at h
      cases h
      exact Or.inr rfl
    · rw [optSetBool_of_status_ne_zero E this opt val h1 hs] at h
      rcases Option.map_eq_some'.mp h with ⟨msg, _, hr⟩
      rw [← hr]
      exact Or.inr rfl
  · rw [optSetBool_of_code_ne_one E this opt val h1] at h
    cases h
    exact Or.inl rfl

/-- Every plain boolean setter is the boolean primitive on the id the setter table
gives it and on `cBool(val)`. -/
theorem boolSetter_eq {σ : Type} (E : Engine σ) (s : Setter)
    (f : Tidy σ → Bool → Option (Result × Tidy σ)) (h : Setter.boolSetter E s = some f)
    (this : Tidy σ) (val : Bool) :
    f this val = optSetBool E this (Setter.optionId s) (cBool val) := by
  cases s <;> simp only [Setter.boolSetter, Option.some.injEq, reduceCtorEq] at h <;>
    subst h <;> rfl

/-- C12: `cBool` encodes `false` as 0 and `true` as 1 and nothing else, and every
plain boolean setter (AddXmlDecl and the 52 others) is `optSetBool` on the
setter's own symbolic id and `cBool(val)`, for both values of `val`; every
result logs exactly one call of the engine's boolean entry point, with that id
and `cBool(val)`, and the setter returns whenever the engine answers a code
other than 1, the capture answers 0, or the reported size is below 2^31. -/
theorem boolean_setters_call_primitive_once {σ : Type} (E : Engine σ) (this : Tidy σ)
    (val : Bool) :
    (cBool false = 0 ∧ cBool true = 1 ∧ (cBool val = 0 ∨ cBool val = 1)) ∧
      AddXmlDecl E this val = optSetBool E this .TidyXmlDecl (cBool val) ∧
      (∀ (s : Setter) (f : Tidy σ → Bool → Option (Result × Tidy σ)),
        Setter.boolSetter E s = some f →
          f this val = optSetBool E this (Setter.optionId s) (cBool val) ∧
          (∀ r, f this val = some r →
            r.2.calls = this.calls ++ [Call.tidyOptSetBool (Setter.optionId s) (cBool val)] ∨
            r.2.calls = this.calls ++ [Call.tidyOptSetBool (Setter.optionId s) (cBool val)]
              ++ [Call.tidySetErrorBuffer]) ∧
          ((E.tidyOptSetBool this.tdoc (Setter.optionId s) (cBool val)).2 ≠ 1 ∨
            (E.tidySetErrorBuffer
              (E.tidyOptSetBool this.tdoc (Setter.optionId s) (cBool val)).1
              this.errbuf).2 = 0 ∨
            (E.tidySetErrorBuffer
              (E.tidyOptSetBool this.tdoc (Setter.optionId s) (cBool val)).1
              this.errbuf).1.2.size < 2147483648 →
            ∃ r, f this val = some r)) := by
  refine ⟨⟨rfl, rfl, ?_⟩, rfl, ?_⟩
  · cases val
    · exact Or.inl rfl
    · exact Or.inr rfl
  · intro s f hf
    have e := boolSetter_eq E s f hf this val
    refine ⟨e, ?_, ?_⟩
    · intro r hr
      rw [e] at hr
      exact optSetBool_calls E this _ _ r hr
    · intro h
      rw [e]
      exact optSetBool_returns E this _ _ h

/-- Witness of C12: AddXmlDecl is in the table of boolean setters, and
AddXmlDecl(true) on the test double makes the one call
`tidyOptSetBool(TidyXmlDecl, 1)`. -/
theorem boolean_setters_call_primitive_once_witness :
    (Setter.boolSetter (storeEngine 0 0) .AddXmlDecl).isSome = true ∧
      AddXmlDecl (storeEngine 0 0) fresh true =
        optSetBool (storeEngine 0 0) fresh .TidyXmlDecl 1 ∧
      (AddXmlDecl (storeEngine 0 0) fresh true).map (fun r => r.2.calls) =
        some [Call.tidyOptSetBool .TidyXmlDecl 1] :=
  ⟨rfl, (boolean_setters_call_primitive_once (storeEngine 0 0) fresh true).2.1, by decide⟩

/-! ## Diagnostic text of the boolean path -/

/-- When the boolean primitive returns an error, the engine answered 1, the
capture answered a non-zero status, and the message is what `C.GoStringN` made
of the buffer the capture left. -/
theorem optSetBool_error_inv {σ : Type} (E : Engine σ) (this : Tidy σ) (opt : TidyOptionId)
    (val : Nat) (r : Result × Tidy σ) (msg : String)
    (h : optSetBool E this opt val = some r) (he : r.1.2 = some msg) :
    (E.tidyOptSetBool this.tdoc opt val).2 = 1 ∧
      (E.tidySetErrorBuffer (E.tidyOptSetBool this.tdoc opt val).1 this.errbuf).2 ≠ 0 ∧
      r.2.errbuf =
        (E.tidySetErrorBuffer (E.tidyOptSetBool this.tdoc opt val).1 this.errbuf).1.2 ∧
      GoStringN r.2.errbuf.bp (toCInt r.2.errbuf.size) = some msg := by
  by_cases h1 : (E.tidyOptSetBool this.tdoc opt val).2 = 1
  · by_cases hs :
      (E.tidySetErrorBuffer (E.tidyOptSetBool this.tdoc opt val).1 this.errbuf).2 = 0
    · rw [optSetBool_of_status_zero E this opt val h1 hs] at h
      cases h
      cases he
    · rw [optSetBool_of_status_ne_zero E this opt val h1 hs] at h
      rcases Option.map_eq_some'.mp h with ⟨m, hm, hr⟩
      subst hr
      cases he
      exact ⟨h1, hs, rfl, hm⟩
  · rw [optSetBool_of_code_ne_one E this opt val h1] at h
    cases h
    cases he

/-- A successful `C.GoStringN` on a size in the range of a C `uint` returned the
first `size` bytes. -/
theorem GoStringN_toCInt_eq (p : List Char) (n : Nat) (msg : String) (hn : n < 4294967296)
    (h : GoStringN p (toCInt n) = some msg) : msg = String.mk (p.take n) := by
  unfold GoStringN at h
  split at h
  · cases h
  · rename_i hneg
    have e : n % 4294967296 = n := Nat.mod_eq_of_lt hn
    unfold toCInt at h hneg
    rw [e] at h hneg
    split at h
    · simp at h
      exact h.symm
    · rename_i hlt
      rw [if_neg hlt] at hneg
      omega

/-- C13, counterexample: on a fresh handle, whose buffer is empty, a boolean set
the engine answers with 1 and whose capture answers a non-zero status returns
a non-nil error with the empty message. -/
theorem boolean_error_message_may_be_empty :
    (AddXmlDecl (rejectEngine 1 (-22)) fresh true).map Prod.fst =
        some (false, some "") ∧
      (some "" : Option String) ≠ none ∧
      "".length = 0 := by
  decide

/-- C13, amended: whenever a boolean setter returns a non-nil error, the message is
exactly the first `errbuf.size` bytes at `errbuf.bp` of the handle's diagnostic
buffer as the capture left it, with nothing added, removed or altered; its
length is the smaller of `size` and the length of the text, so it is empty
when the buffer is. The size is in the range of a C `uint`. -/
theorem boolean_error_is_buffer_text {σ : Type} (E : Engine σ) (this : Tidy σ) (s : Setter)
    (f : Tidy σ → Bool → Option (Result × Tidy σ)) (val : Bool) (r : Result × Tidy σ)
    (msg : String) (hf : Setter.boolSetter E s = some f) (h : f this val = some r)
    (he : r.1.2 = some msg) (hsize : r.2.errbuf.size < 4294967296) :
    r.2.errbuf =
        (E.tidySetErrorBuffer
          (E.tidyOptSetBool this.tdoc (Setter.optionId s) (cBool val)).1 this.errbuf).1.2 ∧
      msg = String.mk (r.2.errbuf.bp.take r.2.errbuf.size) ∧
      msg.length = min r.2.errbuf.size r.2.errbuf.bp.length := by
  rw [boolSetter_eq E s f hf this val] at h
  obtain ⟨_, _, hb, hg⟩ := optSetBool_error_inv E this _ _ r msg h he
  have hm := GoStringN_toCInt_eq _ _ msg hsize hg
  refine ⟨hb, hm, ?_⟩
  rw [hm]
  simp [String.length]

/-- Witness of the amended C13: AddXmlDecl(true) on a buffer reporting 3 bytes of
"bad value" returns the error "bad". -/
theorem boolean_error_is_buffer_text_witness :
    AddXmlDecl (rejectEngine 1 (-22)) (reporting 3) true =
        some ((false, some "bad"),
          { tdoc := [], errbuf := { bp := "bad value".data, size := 3 },
            calls := [Call.tidyOptSetBool .TidyXmlDecl 1, Call.tidySetErrorBuffer] }) ∧
      "bad" = String.mk ("bad value".data.take 3) :=
  ⟨rfl,
    (boolean_error_is_buffer_text (rejectEngine 1 (-22)) (reporting 3) .AddXmlDecl
      (AddXmlDecl (rejectEngine 1 (-22))) true
      ((false, some "bad"),
        { tdoc := [], errbuf := { bp := "bad value".data, size := 3 },
          calls := [Call.tidyOptSetBool .TidyXmlDecl 1, Call.tidySetErrorBuffer] })
      "bad" rfl rfl rfl (by decide)).2.1⟩

/-! ## Integer and string setters, by kind -/

/-- Every setter with an `int` argument either is the integer primitive on the id
the setter table gives it and the converted value, or refuses with one of the
four range messages and returns the handle as it was. -/
theorem intSetter_cases {σ : Type} (E : Engine σ) (s : Setter)
    (f : Tidy σ → Int → Result × Tidy σ) (h : Setter.intSetter E s = some f)
    (this : Tidy σ) (val : Int) :
    f this val = optSetInt E this (Setter.optionId s) (toCUlong val) ∨
      (f this val).2 = this ∧ (f this val).1.1 = false ∧
        ((f this val).1.2 = some "Argument val int is out of range (0,1,2)" ∨
          (f this val).1.2 = some "Argument val int is out of range (0,1)" ∨
          (f this val).1.2 = some "Argument val int is out of range (0,1,2,3)" ∨
          (f this val).1.2 = some "Argument val int is out of range (0-13)") := by
  cases s <;> simp only [Setter.intSetter, Option.some.injEq, reduceCtorEq] at h <;>
    subst h <;>
    first
    | exact Or.inl rfl
    | (simp only [MergeDivs, ShowBodyOnly, Indent, OutputBom, optSetAutoBool,
        RepeatedAttributes, AccessibilityCheck, Newline, CharEncoding, InputEncoding,
        OutputEncoding, Setter.optionId]
       split
       · exact Or.inl rfl
       · exact Or.inr ⟨rfl, rfl, by simp⟩)

/-- Every setter with a `string` argument is the string primitive on the id the
setter table gives it and the marshalled value. -/
theorem stringSetter_eq {σ : Type} (E : Engine σ) (s : Setter)
    (f : Tidy σ → String → Result × Tidy σ) (h : Setter.stringSetter E s = some f)
    (this : Tidy σ) (val : String) :
    f this val = optSetString E this (Setter.optionId s) (CString val) := by
  cases s <;> simp only [Setter.stringSetter, Option.some.injEq, reduceCtorEq] at h <;>
    subst h <;> rfl

/-- C15: for every engine, id and value, `optSetInt` and `optSetString` return a
nil error, and their flag is `false` exactly when the engine's entry point
returned code 1 and `true` for every other code; so whenever a setter with an
`int` argument returns a non-nil error, the error is one of the four range
messages and the handle, call log included, is returned as it was: the error
was raised before the engine was invoked. -/
theorem int_string_errors_are_local {σ : Type} (E : Engine σ) (this : Tidy σ) :
    (∀ (opt : TidyOptionId) (val : Nat),
        (optSetInt E this opt val).1 =
          (decide ((E.tidyOptSetInt this.tdoc opt val).2 ≠ 1), none)) ∧
      (∀ (opt : TidyOptionId) (sval : List Char),
        (optSetString E this opt sval).1 =
          (decide ((E.tidyOptSetValue this.tdoc opt sval).2 ≠ 1), none)) ∧
      (∀ (s : Setter) (f : Tidy σ → Int → Result × Tidy σ) (val : Int),
        Setter.intSetter E s = some f → (f this val).1.2 ≠ none →
          (f this val).2 = this ∧ (f this val).1.1 = false ∧
          ((f this val).1.2 = some "Argument val int is out of range (0,1,2)" ∨
            (f this val).1.2 = some "Argument val int is out of range (0,1)" ∨
            (f this val).1.2 = some "Argument val int is out of range (0,1,2,3)" ∨
            (f this val).1.2 = some "Argument val int is out of range (0-13)")) := by
  refine ⟨fun opt val => optSetInt_result E this opt val,
    fun opt sval => optSetString_result E this opt sval, ?_⟩
  intro s f val hf hne
  rcases intSetter_cases E s f hf this val with h | h
  · rw [h] at hne
    exact absurd (optSetInt_error E this _ _) hne
  · exact h

/-- Witness of C15 on the test double: the flag follows the return code, and the
error of AccessibilityCheck(4) is a range error with the handle untouched. -/
theorem int_string_errors_are_local_witness :
    (optSetInt (rejectEngine 1 0) fresh .TidyWrapLen 80).1 = (false, none) ∧
      (optSetInt (rejectEngine 7 0) fresh .TidyWrapLen 80).1 = (true, none) ∧
      (AccessibilityCheck (storeEngine 0 0) fresh 4).2.calls = fresh.calls :=
  have w := int_string_errors_are_local (storeEngine 0 0) fresh
  ⟨(int_string_errors_are_local (rejectEngine 1 0) fresh).1 .TidyWrapLen 80,
    (int_string_errors_are_local (rejectEngine 7 0) fresh).1 .TidyWrapLen 80,
    congrArg Tidy.calls (w.2.2 .AccessibilityCheck _ 4 rfl (by decide)).1⟩

/-! ## Shape of the boolean result -/

/-- C16, counterexample: the buffer reports 2^31 bytes, the engine answers the
boolean set with 1 and the capture with a non-zero status; `C.int(size)` is
negative, `C.GoStringN` panics and `optSetBool` returns neither `(true, nil)`
nor `(false, err)`. -/
theorem optSetBool_no_result_on_large_buffer :
    ((rejectEngine 1 (-22)).tidyOptSetBool bulk.tdoc .TidyXmlDecl 1).2 = 1 ∧
      ((rejectEngine 1 (-22)).tidySetErrorBuffer bulk.tdoc bulk.errbuf).2 ≠ 0 ∧
      toCInt bulk.errbuf.size = -2147483648 ∧
      (optSetBool (rejectEngine 1 (-22)) bulk .TidyXmlDecl 1).map Prod.fst = none := by
  decide

/-- C16, amended: for every boolean option and value, unless the engine answers 1,
the capture answers a non-zero status and the buffer then reports 2^31 bytes
or more, `optSetBool` returns, and what it returns is either `(true, nil)` or
`(false, err)` with `err` non-nil, never `(false, nil)` and never
`(true, err)`; the error case is returned if and only if the boolean entry
point returned code 1 and the capture returned a non-zero status. -/
theorem optSetBool_result_shape {σ : Type} (E : Engine σ) (this : Tidy σ)
    (opt : TidyOptionId) (val : Nat)
    (h : (E.tidyOptSetBool this.tdoc opt val).2 ≠ 1 ∨
      (E.tidySetErrorBuffer (E.tidyOptSetBool this.tdoc opt val).1 this.errbuf).2 = 0 ∨
      (E.tidySetErrorBuffer (E.tidyOptSetBool this.tdoc opt val).1 this.errbuf).1.2.size
        < 2147483648) :
    ∃ r, optSetBool E this opt val = some r ∧
      (r.1 = (true, none) ∨ (r.1.1 = false ∧ r.1.2 ≠ none)) ∧
      ((r.1.1 = false ∧ r.1.2 ≠ none) ↔
        ((E.tidyOptSetBool this.tdoc opt val).2 = 1 ∧
          (E.tidySetErrorBuffer (E.tidyOptSetBool this.tdoc opt val).1
            this.errbuf).2 ≠ 0)) := by
  by_cases h1 : (E.tidyOptSetBool this.tdoc opt val).2 = 1
  · by_cases hs :
      (E.tidySetErrorBuffer (E.tidyOptSetBool this.tdoc opt val).1 this.errbuf).2 = 0
    · refine ⟨_, optSetBool_of_status_zero E this opt val h1 hs, Or.inl rfl, ?_⟩
      simp [hs]
    · have hsz : (E.tidySetErrorBuffer (E.tidyOptSetBool this.tdoc opt val).1
          this.errbuf).1.2.size < 2147483648 := by
        rcases h with h | h | h
        · exact absurd h1 h
        · exact absurd h hs
        · exact h
      have e := optSetBool_of_status_ne_zero E this opt val h1 hs
      rw [toCInt_of_lt _ hsz, GoStringN_of_nonneg] at e
      refine ⟨_, e, Or.inr ⟨rfl, by simp⟩, ?_⟩
      simp [h1, hs]
  · refine ⟨_, optSetBool_of_code_ne_one E this opt val h1, Or.inl rfl, ?_⟩
    simp [h1]

/-- Witness of the amended C16: on a buffer reporting 3 bytes, a set answered with 1
and a capture answered with -22 returns `false` with the error "bad". -/
theorem optSetBool_result_shape_witness :
    ∃ r, optSetBool (rejectEngine 1 (-22)) (reporting 3) .TidyXmlDecl 1 = some r ∧
      (r.1 = (true, none) ∨ (r.1.1 = false ∧ r.1.2 ≠ none)) ∧
      ((r.1.1 = false ∧ r.1.2 ≠ none) ↔
        (((rejectEngine 1 (-22)).tidyOptSetBool (reporting 3).tdoc .TidyXmlDecl 1).2 = 1 ∧
          ((rejectEngine 1 (-22)).tidySetErrorBuffer
            ((rejectEngine 1 (-22)).tidyOptSetBool (reporting 3).tdoc .TidyXmlDecl 1).1
            (reporting 3).errbuf).2 ≠ 0)) :=
  optSetBool_result_shape (rejectEngine 1 (-22)) (reporting 3) .TidyXmlDecl 1
    (Or.inr (Or.inr (by decide)))

/-! ## Diagnostic capture over the shared buffer -/

/-- The handle after a set entry point: one more logged call, the same record of
capture, and the same buffer when the engine was never handed it. -/
theorem afterSet_frame {σ : Type} (this : SharedTidy σ) (r : (σ × TidyBuffer) × Int)
    (c : Call) :
    (this.afterSet r c).calls = this.calls ++ [c] ∧
      (this.afterSet r c).captured = this.captured ∧
      (this.captured = false → (this.afterSet r c).errbuf = this.errbuf) := by
  refine ⟨rfl, rfl, ?_⟩
  intro h
  simp [SharedTidy.afterSet, h]

/-- The integer primitive over the shared buffer returns the handle after its one
set call. -/
theorem shared_optSetInt_handle {σ : Type} (E : SharedEngine σ) (this : SharedTidy σ)
    (opt : TidyOptionId) (val : Nat) :
    (Shared.optSetInt E this opt val).2 =
      this.afterSet (E.tidyOptSetInt this.tdoc this.errbuf opt val)
        (Call.tidyOptSetInt opt val) := by
  simp only [Shared.optSetInt]
  split <;> rfl

/-- The string primitive over the shared buffer returns the handle after its one
set call. -/
theorem shared_optSetString_handle {σ : Type} (E : SharedEngine σ) (this : SharedTidy σ)
    (opt : TidyOptionId) (val : List Char) :
    (Shared.optSetString E this opt val).2 =
      this.afterSet (E.tidyOptSetValue this.tdoc this.errbuf opt val)
        (Call.tidyOptSetValue opt val) := by
  simp only [Shared.optSetString]
  split <;> rfl

/-- Every setter with an `int` argument over the shared buffer either is the
integer primitive on the id the setter table gives it, or returns the handle as
it was. -/
theorem shared_intSetter_cases {σ : Type} (E : SharedEngine σ) (s : Setter)
    (f : SharedTidy σ → Int → Result × SharedTidy σ) (h : Shared.intSetter E s = some f)
    (this : SharedTidy σ) (val : Int) :
    f this val = Shared.optSetInt E this (Setter.optionId s) (toCUlong val) ∨
      (f this val).2 = this := by
  cases s <;> simp only [Shared.intSetter, Option.some.injEq, reduceCtorEq] at h <;>
    subst h <;>
    first
    | exact Or.inl rfl
    | (simp only [Shared.MergeDivs, Shared.ShowBodyOnly, Shared.Indent, Shared.OutputBom,
        Shared.optSetAutoBool, Shared.RepeatedAttributes, Shared.AccessibilityCheck,
        Shared.Newline, Shared.CharEncoding, Shared.InputEncoding, Shared.OutputEncoding,
        Setter.optionId]
       split
       · exact Or.inl rfl
       · exact Or.inr rfl)

/-- Every setter with a `string` argument over the shared buffer is the string
primitive on the id the setter table gives it and the marshalled value. -/
theorem shared_stringSetter_eq {σ : Type} (E : SharedEngine σ) (s : Setter)
    (f : SharedTidy σ → String → Result × SharedTidy σ)
    (h : Shared.stringSetter E s = some f) (this : SharedTidy σ) (val : String) :
    f this val = Shared.optSetString E this (Setter.optionId s) (CString val) := by
  cases s <;> simp only [Shared.stringSetter, Option.some.injEq, reduceCtorEq] at h <;>
    subst h <;> rfl

/-- On an engine that leaves the buffer alone in its set entry points, the integer
primitive over the shared buffer is the integer primitive of the first model. -/
theorem shared_optSetInt_toShared {σ : Type} (E : Engine σ) (this : Tidy σ) (c : Bool)
    (opt : TidyOptionId) (val : Nat) :
    Shared.optSetInt E.toShared (this.toShared c) opt val =
      ((optSetInt E this opt val).1, (optSetInt E this opt val).2.toShared c) := by
  simp only [Shared.optSetInt, optSetInt, Engine.toShared, Tidy.toShared,
    SharedTidy.afterSet]
  split <;> simp

/-- On an engine that leaves the buffer alone in its set entry points, the string
primitive over the shared buffer is the string primitive of the first model. -/
theorem shared_optSetString_toShared {σ : Type} (E : Engine σ) (this : Tidy σ) (c : Bool)
    (opt : TidyOptionId) (val : List Char) :
    Shared.optSetString E.toShared (this.toShared c) opt val =
      ((optSetString E this opt val).1, (optSetString E this opt val).2.toShared c) := by
  simp only [Shared.optSetString, optSetString, Engine.toShared, Tidy.toShared,
    SharedTidy.afterSet]
  split <;> simp

/-- On an engine that leaves the buffer alone in its set entry points, the boolean
primitive over the shared buffer is the boolean primitive of the first model;
the buffer counts as handed to the engine once the set was answered with 1. -/
theorem shared_optSetBool_toShared {σ : Type} (E : Engine σ) (this : Tidy σ) (c : Bool)
    (opt : TidyOptionId) (val : Nat) :
    Shared.optSetBool E.toShared (this.toShared c) opt val =
      (optSetBool E this opt val).map (fun r =>
        (r.1, r.2.toShared
          (if (E.tidyOptSetBool this.tdoc opt val).2 = 1 then true else c))) := by
  by_cases h1 : (E.tidyOptSetBool this.tdoc opt val).2 = 1
  · by_cases hs :
      (E.tidySetErrorBuffer (E.tidyOptSetBool this.tdoc opt val).1 this.errbuf).2 = 0
    · rw [optSetBool_of_status_zero E this opt val h1 hs]
      simp [Shared.optSetBool, Engine.toShared, Tidy.toShared, SharedTidy.afterSet, h1, hs]
    · rw [optSetBool_of_status_ne_zero E this opt val h1 hs]
      simp only [Shared.optSetBool, Engine.toShared, Tidy.toShared, SharedTidy.afterSet,
        ite_self, if_pos h1, if_pos hs]
      split <;> simp [*, Tidy.toShared]
  · rw [optSetBool_of_code_ne_one E this opt val h1]
    simp [Shared.optSetBool, Engine.toShared, Tidy.toShared, SharedTidy.afterSet, h1]

/-- C14, counterexample: on a fresh handle, a boolean set the engine answers with 1
makes `optSetBool` hand the buffer to the engine (the capture answers 0, the
buffer is still empty). The next call Doctype("x"), and likewise Wrap(80),
does not invoke `tidySetErrorBuffer`, yet the engine reports its refusal
through the pointer it kept: the handle's diagnostic buffer is no longer what
it was, it holds "bad value". -/
theorem string_path_changes_captured_buffer :
    (Shared.optSetBool (diagEngine 1 0) sharedFresh .TidyXmlDecl 1).map
        (fun r => (r.1, r.2.errbuf, r.2.captured)) =
        some ((true, none), { bp := [], size := 0 }, true) ∧
      (Shared.optSetBool (diagEngine 1 0) sharedFresh .TidyXmlDecl 1).map
        (fun r => (Shared.Doctype (diagEngine 1 0) r.2 "x").2.errbuf) =
        some { bp := "bad value".data, size := 9 } ∧
      (Shared.optSetBool (diagEngine 1 0) sharedFresh .TidyXmlDecl 1).map
        (fun r => (Shared.Doctype (diagEngine 1 0) r.2 "x").2.calls) =
        some [Call.tidyOptSetBool .TidyXmlDecl 1, Call.tidySetErrorBuffer,
          Call.tidyOptSetValue .TidyDoctype (CString "x")] ∧
      (Shared.optSetBool (diagEngine 1 0) sharedFresh .TidyXmlDecl 1).map
        (fun r => (Shared.Wrap (diagEngine 1 0) r.2 80).2.errbuf) =
        some { bp := "bad value".data, size := 9 } ∧
      ({ bp := "bad value".data, size := 9 } : TidyBuffer) ≠ { bp := [], size := 0 } := by
  decide

/-- C14, amended: the integer and string paths never invoke diagnostic capture. For
every engine, id and value, `optSetInt` and `optSetString`, and every setter
with an `int` or `string` argument (tri-state, enumerated, unconstrained
integer, string), log their own set call and nothing else, whatever code the
engine returns; they do not hand the buffer to the engine, and on a handle
whose buffer was never handed to the engine the diagnostic buffer is left as
it was. `optSetBool` logs the capture only when the boolean entry point
returned 1, and then after the set call; on any other code it hands nothing
to the engine. -/
theorem capture_only_on_boolean_path {σ : Type} (E : SharedEngine σ) (this : SharedTidy σ) :
    (∀ (opt : TidyOptionId) (val : Nat),
        (Shared.optSetInt E this opt val).2.calls =
          this.calls ++ [Call.tidyOptSetInt opt val] ∧
        (Shared.optSetInt E this opt val).2.captured = this.captured ∧
        (this.captured = false → (Shared.optSetInt E this opt val).2.errbuf = this.errbuf)) ∧
      (∀ (opt : TidyOptionId) (sval : List Char),
        (Shared.optSetString E this opt sval).2.calls =
          this.calls ++ [Call.tidyOptSetValue opt sval] ∧
        (Shared.optSetString E this opt sval).2.captured = this.captured ∧
        (this.captured = false →
          (Shared.optSetString E this opt sval).2.errbuf = this.errbuf)) ∧
      (∀ (s : Setter) (f : SharedTidy σ → Int → Result × SharedTidy σ) (val : Int),
        Shared.intSetter E s = some f →
          ((f this val).2.calls = this.calls ∨
            (f this val).2.calls =
              this.calls ++ [Call.tidyOptSetInt (Setter.optionId s) (toCUlong val)]) ∧
          (f this val).2.captured = this.captured ∧
          (this.captured = false → (f this val).2.errbuf = this.errbuf)) ∧
      (∀ (s : Setter) (f : SharedTidy σ → String → Result × SharedTidy σ) (val : String),
        Shared.stringSetter E s = some f →
          (f this val).2.calls =
            this.calls ++ [Call.tidyOptSetValue (Setter.optionId s) (CString val)] ∧
          (f this val).2.captured = this.captured ∧
          (this.captured = false → (f this val).2.errbuf = this.errbuf)) ∧
      (∀ (opt : TidyOptionId) (val : Nat) (r : Result × SharedTidy σ),
        Shared.optSetBool E this opt val = some r →
          ((E.tidyOptSetBool this.tdoc this.errbuf opt val).2 ≠ 1 →
            r.2.calls = this.calls ++ [Call.tidyOptSetBool opt val] ∧
            r.2.captured = this.captured ∧
            (this.captured = false → r.2.errbuf = this.errbuf)) ∧
          ((E.tidyOptSetBool this.tdoc this.errbuf opt val).2 = 1 →
            r.2.calls = this.calls ++ [Call.tidyOptSetBool opt val] ++
              [Call.tidySetErrorBuffer] ∧
            r.2.captured = true)) := by
  refine ⟨?_, ?_, ?_, ?_, ?_⟩
  · intro opt val
    rw [shared_optSetInt_handle]
    exact afterSet_frame this _ _
  · intro opt sval
    rw [shared_optSetString_handle]
    exact afterSet_frame this _ _
  · intro s f val hf
    rcases shared_intSetter_cases E s f hf this val with h | h
    · rw [h, shared_optSetInt_handle]
      have fr := afterSet_frame this (E.tidyOptSetInt this.tdoc this.errbuf
        (Setter.optionId s) (toCUlong val)) (Call.tidyOptSetInt (Setter.optionId s)
        (toCUlong val))
      exact ⟨Or.inr fr.1, fr.2.1, fr.2.2⟩
    · rw [h]
      exact ⟨Or.inl rfl, rfl, fun _ => rfl⟩
  · intro s f val hf
    rw [shared_stringSetter_eq E s f hf this val, shared_optSetString_handle]
    exact afterSet_frame this _ _
  · intro opt val r hr
    simp only [Shared.optSetBool] at hr
    constructor
    · intro h1
      rw [if_neg h1] at hr
      cases hr
      exact afterSet_frame this _ _
    · intro h1
      rw [if_pos h1] at hr
      split at hr
      · split at hr
        · cases hr
          exact ⟨rfl, rfl⟩
        · cases hr
      · cases hr
        exact ⟨rfl, rfl⟩

/-- Witness of the amended C14: on a fresh handle, whose buffer the engine was
never handed, Doctype("x") and Wrap(80) on the reporting test double log one
set call each and leave the empty buffer as it was. -/
theorem capture_only_on_boolean_path_witness :
    (Shared.Doctype (diagEngine 1 0) sharedFresh "x").2.errbuf = sharedFresh.errbuf ∧
      (Shared.Doctype (diagEngine 1 0) sharedFresh "x").2.calls =
        sharedFresh.calls ++
          [Call.tidyOptSetValue (Setter.optionId .Doctype) (CString "x")] ∧
      (Shared.Wrap (diagEngine 1 0) sharedFresh 80).2.errbuf = sharedFresh.errbuf :=
  have w := capture_only_on_boolean_path (diagEngine 1 0) sharedFresh
  ⟨(w.2.2.2.1 .Doctype _ "x" rfl).2.2 rfl, (w.2.2.2.1 .Doctype _ "x" rfl).1,
    (w.2.2.1 .Wrap _ 80 rfl).2.2 rfl⟩

end GoTidy
